import Mathlib

/-!
Verification of the speaker-capture subsystem of `src-tauri/src/speaker/commands.rs`:
the VAD segmentation pipeline, the noise gate, loudness normalization, the WAV/base64
encoder, the continuous-capture fallback, and the capture controller.

Machine floats (`f32`) are modelled as real numbers (exact arithmetic), `usize`/`u32`/
`u64` as `Nat`, and `Vec<f32>`/`VecDeque<f32>` as `List ℝ` (front of the deque = head
of the list).  Fallible Rust functions returning `Result<_, String>` are modelled with
`Except String _`.
-/

noncomputable section

open Classical

/-- `VadConfig` from `commands.rs` (lines 18-29). -/
structure VadConfig where
  enabled : Bool
  hop_size : ℕ
  sensitivity_rms : ℝ
  peak_threshold : ℝ
  silence_chunks : ℕ
  min_speech_chunks : ℕ
  pre_speech_chunks : ℕ
  noise_gate_threshold : ℝ
  max_recording_duration_secs : ℕ

/-- `impl Default for VadConfig` (lines 31-45). -/
def VadConfig.default : VadConfig :=
  { enabled := true
    hop_size := 1024
    sensitivity_rms := 0.012
    peak_threshold := 0.035
    silence_chunks := 45
    min_speech_chunks := 7
    pre_speech_chunks := 12
    noise_gate_threshold := 0.003
    max_recording_duration_secs := 180 }

/-- The shared `AudioState`: the mutex-guarded task handle (task handles are modelled by
`ℕ` identifiers), the capturing flag, and the active `VadConfig`. -/
structure AudioState where
  stream_task : Option ℕ
  is_capturing : Bool
  vad_config : VadConfig

/-- The notifications emitted by the capture pipeline (`app.emit` calls). -/
inductive VadEvent where
  | speechStart : VadEvent
  | speechDetected (b64 : String) : VadEvent
  | speechDiscarded (reason : String) : VadEvent
  | audioEncodingError (reason : String) : VadEvent
  | continuousRecordingStart (secs : ℕ) : VadEvent
  | continuousRecordingStopped : VadEvent

/-- Recognizer for `speech-detected` notifications. -/
def VadEvent.isDetected : VadEvent → Bool
  | VadEvent.speechDetected _ => true
  | _ => false

/-- Recognizer for `speech-discarded` notifications. -/
def VadEvent.isDiscarded : VadEvent → Bool
  | VadEvent.speechDiscarded _ => true
  | _ => false

/-- Recognizer for `audio-encoding-error` notifications. -/
def VadEvent.isEncodingError : VadEvent → Bool
  | VadEvent.audioEncodingError _ => true
  | _ => false

/-- The per-sample body of `apply_noise_gate` (lines 387-393): soft-knee compression
`s * (|s|/threshold)^(1/KNEE_RATIO)` with `KNEE_RATIO = 3.0` below the threshold,
passthrough at or above it. -/
def gateSample (threshold s : ℝ) : ℝ :=
  if |s| < threshold then s * (|s| / threshold) ^ ((1 : ℝ) / 3) else s

/-- `apply_noise_gate` (lines 382-396). -/
def apply_noise_gate (samples : List ℝ) (threshold : ℝ) : List ℝ :=
  samples.map (gateSample threshold)

/-- `calculate_audio_metrics` (lines 399-411): returns `(rms, peak)` where
`rms = sqrt(Σ v² / len)` and `peak = max |v|`, folded exactly as in the source. -/
def calculate_audio_metrics (chunk : List ℝ) : ℝ × ℝ :=
  let sumsq := (chunk.map fun v => v * v).sum
  let peak := chunk.foldl (fun p v => max p |v|) 0
  (Real.sqrt (sumsq / chunk.length), peak)

/-- `normalize_audio_level` (lines 413-438): target-RMS gain capped at 10, with
soft saturation `sign(amplified) * (1 - exp(-|amplified|))` past the ±1 ceiling.
`f32::signum` on a nonzero value agrees with `Real.sign`. -/
def normalize_audio_level (samples : List ℝ) (target_rms : ℝ) : List ℝ :=
  if samples = [] then []
  else
    let sum_squares := (samples.map fun s => s * s).sum
    let current_rms := Real.sqrt (sum_squares / samples.length)
    if current_rms < 0.001 then samples
    else
      let gain := min (target_rms / current_rms) 10
      samples.map fun s =>
        let amplified := s * gain
        if 1 < |amplified| then Real.sign amplified * (1 - Real.exp (-|amplified|))
        else amplified

/-- The sample conversion of `samples_to_wav_b64` line 470-471: clamp to `[-1, 1]`,
scale by `i16::MAX = 32767`, and truncate toward zero (Rust `as i16`). -/
def f32_to_i16 (s : ℝ) : ℤ :=
  let clamped := max (-1) (min s 1)
  let scaled := clamped * 32767
  if 0 ≤ scaled then ⌊scaled⌋ else ⌈scaled⌉

/-- Two's-complement little-endian byte pair of an `i16` value. -/
def i16le (v : ℤ) : List ℕ :=
  [(v % 65536).toNat % 256, (v % 65536).toNat / 256]

/-- Little-endian 16-bit field of a WAV header. -/
def le16 (n : ℕ) : List ℕ := [n % 256, n / 256 % 256]

/-- Little-endian 32-bit field of a WAV header. -/
def le32 (n : ℕ) : List ℕ :=
  [n % 256, n / 256 % 256, n / 65536 % 256, n / 16777216 % 256]

/-- The RIFF/WAVE container bytes produced by `hound::WavWriter` for the spec
`channels = 1, bits_per_sample = 16, SampleFormat::Int` (lines 456-475): the standard
44-byte PCM header (`RIFF`, riff size, `WAVE`, `fmt ` chunk of size 16 with
format 1 / mono / sample rate / byte rate / block align 2 / 16 bits, `data`, data size)
followed by the samples as little-endian `i16`. -/
def wavBytes (sample_rate : ℕ) (mono_f32 : List ℝ) : List ℕ :=
  let data_size := 2 * mono_f32.length
  [0x52, 0x49, 0x46, 0x46] ++ le32 (36 + data_size) ++
  [0x57, 0x41, 0x56, 0x45] ++
  [0x66, 0x6D, 0x74, 0x20] ++ le32 16 ++
  le16 1 ++ le16 1 ++ le32 sample_rate ++ le32 (sample_rate * 2) ++
  le16 2 ++ le16 16 ++
  [0x64, 0x61, 0x74, 0x61] ++ le32 data_size ++
  (mono_f32.map fun s => i16le (f32_to_i16 s)).flatten

/-- The standard base64 alphabet used by `base64::engine::general_purpose::STANDARD`. -/
def b64chars : List Char :=
  "ABCDEFGHIJKLMNOPQRSTUVWXYZabcdefghijklmnopqrstuvwxyz0123456789+/".toList

/-- Character for a 6-bit value. -/
def b64char (i : ℕ) : Char := b64chars.getD i '?'

/-- Standard base64 encoding with `=` padding (`B64.encode`). -/
def b64encode : List ℕ → String
  | [] => ""
  | [b0] =>
    String.mk [b64char (b0 / 4), b64char (b0 % 4 * 16), '=', '=']
  | [b0, b1] =>
    String.mk [b64char (b0 / 4), b64char (b0 % 4 * 16 + b1 / 16),
               b64char (b1 % 16 * 4), '=']
  | b0 :: b1 :: b2 :: rest =>
    String.mk [b64char (b0 / 4), b64char (b0 % 4 * 16 + b1 / 16),
               b64char (b1 % 16 * 4 + b2 / 64), b64char (b2 % 64)] ++ b64encode rest

/-- `samples_to_wav_b64` (lines 441-478): rejects a sample rate outside
`[8000, 96000]` and an empty buffer, otherwise base64-encodes the WAV container. -/
def samples_to_wav_b64 (sample_rate : ℕ) (mono_f32 : List ℝ) : Except String String :=
  if sample_rate < 8000 ∨ 96000 < sample_rate then
    Except.error ("Invalid sample rate: " ++ toString sample_rate ++
      ". Expected 8000-96000 Hz")
  else if mono_f32 = [] then Except.error "Empty audio buffer"
  else Except.ok (b64encode (wavBytes sample_rate mono_f32))

/-- The mutable local state of `run_vad_capture` (lines 144-151): the rolling
pre-speech deque, the utterance buffer, the `in_speech` flag and the two counters.
(The sample-accumulation deque `buffer` is handled by `chunkList` below.) -/
structure VadState where
  pre_speech : List ℝ
  speech_buffer : List ℝ
  in_speech : Bool
  silence_chunks : ℕ
  speech_chunks : ℕ

/-- Initial state of `run_vad_capture` (lines 144-150). -/
def initVadState : VadState :=
  { pre_speech := [], speech_buffer := [], in_speech := false,
    silence_chunks := 0, speech_chunks := 0 }

/-- The `is_speech` branch of the `run_vad_capture` loop body (lines 171-201):
possible speech start (emit `speech-start`, drain the pre-speech buffer into the
utterance), counter updates, and the 30-second safety cap which emits
`speech-detected` only when encoding succeeds. -/
def vadSpeechStep (sr : ℕ) (st : VadState) (mono : List ℝ) :
    VadState × List VadEvent :=
  let startPart : VadState × List VadEvent :=
    if st.in_speech then (st, [])
    else
      ({ st with in_speech := true, speech_chunks := 0,
                 speech_buffer := st.speech_buffer ++ st.pre_speech,
                 pre_speech := [] },
       [VadEvent.speechStart])
  let st1 := startPart.1
  let st2 := { st1 with speech_chunks := st1.speech_chunks + 1,
                         speech_buffer := st1.speech_buffer ++ mono,
                         silence_chunks := 0 }
  if sr * 30 < st2.speech_buffer.length then
    let normalized_buffer := normalize_audio_level st2.speech_buffer 0.1
    let evs :=
      match samples_to_wav_b64 sr normalized_buffer with
      | Except.ok b64 => [VadEvent.speechDetected b64]
      | Except.error _ => []
    ({ st2 with speech_buffer := [], in_speech := false, speech_chunks := 0 },
     startPart.2 ++ evs)
  else (st2, startPart.2)

/-- The silence branch of the `run_vad_capture` loop body (lines 202-263):
while in speech, count silence and on hangover either trim/normalize/encode/emit the
utterance (with an `audio-encoding-error` notification on encode failure) or emit
`speech-discarded`; while idle, maintain the rolling pre-speech buffer. -/
def vadSilenceStep (cfg : VadConfig) (sr : ℕ) (st : VadState) (mono : List ℝ) :
    VadState × List VadEvent :=
  if st.in_speech then
    let st1 := { st with silence_chunks := st.silence_chunks + 1,
                          speech_buffer := st.speech_buffer ++ mono }
    if cfg.silence_chunks ≤ st1.silence_chunks then
      if cfg.min_speech_chunks ≤ st1.speech_chunks ∧ st1.speech_buffer ≠ [] then
        let silence_duration_samples := st1.silence_chunks * cfg.hop_size
        let keep_silence_samples := sr * 15 / 100
        let trim_amount := silence_duration_samples - keep_silence_samples
        let buf :=
          if trim_amount < st1.speech_buffer.length then
            st1.speech_buffer.take (st1.speech_buffer.length - trim_amount)
          else st1.speech_buffer
        let normalized_buffer := normalize_audio_level buf 0.1
        let evs :=
          match samples_to_wav_b64 sr normalized_buffer with
          | Except.ok b64 => [VadEvent.speechDetected b64]
          | Except.error _ => [VadEvent.audioEncodingError "Failed to encode speech"]
        ({ st1 with speech_buffer := [], in_speech := false,
                    silence_chunks := 0, speech_chunks := 0 }, evs)
      else
        ({ st1 with speech_buffer := [], in_speech := false,
                    silence_chunks := 0, speech_chunks := 0 },
         [VadEvent.speechDiscarded "Audio too short (likely background noise)"])
    else (st1, [])
  else
    let pre := st.pre_speech ++ mono
    let cap := cfg.pre_speech_chunks * cfg.hop_size
    ({ st with pre_speech := pre.drop (pre.length - cap) }, [])

/-- One iteration of the inner `while buffer.len() >= hop_size` loop of
`run_vad_capture` (lines 157-264) applied to one hop-sized frame: noise gate, metrics,
and the speech/silence dispatch `rms > sensitivity_rms || peak > peak_threshold`. -/
def processHop (cfg : VadConfig) (sr : ℕ) (st : VadState) (hop : List ℝ) :
    VadState × List VadEvent :=
  let mono := apply_noise_gate hop cfg.noise_gate_threshold
  let m := calculate_audio_metrics mono
  if cfg.sensitivity_rms < m.1 ∨ cfg.peak_threshold < m.2 then
    vadSpeechStep sr st mono
  else
    vadSilenceStep cfg sr st mono

/-- Processing a sequence of hop-sized frames in order, accumulating the emitted
notifications. -/
def processHops (cfg : VadConfig) (sr : ℕ) : VadState → List (List ℝ) →
    VadState × List VadEvent
  | st, [] => (st, [])
  | st, h :: rest =>
    let r := processHop cfg sr st h
    let r' := processHops cfg sr r.1 rest
    (r'.1, r.2 ++ r'.2)

/-- Splitting the incoming sample stream into consecutive `hop`-sized frames, exactly
as the sample-accumulation deque plus inner `while` loop of `run_vad_capture` do; a
trailing partial frame below `hop` samples is never processed.  (The guard `0 < hop`
reflects that with `hop_size = 0` the source's inner loop would never consume.) -/
def chunkList (hop : ℕ) (l : List ℝ) : List (List ℝ) :=
  if _h : 0 < hop ∧ hop ≤ l.length then
    l.take hop :: chunkList hop (l.drop hop)
  else []
termination_by l.length
decreasing_by
  simp only [List.length_drop]
  omega

/-- `run_vad_capture` (lines 137-267) on a finite sample stream: fold the per-hop
loop body over the hop-sized frames of the stream, starting from the initial state,
and collect the emitted notifications. -/
def run_vad_capture (cfg : VadConfig) (sr : ℕ) (samples : List ℝ) :
    VadState × List VadEvent :=
  processHops cfg sr initVadState (chunkList cfg.hop_size samples)

/-- The post-loop tail of `run_continuous_capture` (lines 345-378): on loop exit the
accumulated buffer, if non-empty, is noise-gated, normalized, encoded and emitted
(`speech-detected`, or `audio-encoding-error` carrying the encode error); an empty
buffer yields `audio-encoding-error "No audio recorded"`; in every case
`continuous-recording-stopped` is emitted last. -/
def finish_continuous (cfg : VadConfig) (sr : ℕ) (buf : List ℝ) : List VadEvent :=
  (if buf ≠ [] then
    let cleaned := apply_noise_gate buf cfg.noise_gate_threshold
    let cleaned2 := normalize_audio_level cleaned 0.1
    match samples_to_wav_b64 sr cleaned2 with
    | Except.ok b64 => [VadEvent.speechDetected b64]
    | Except.error e => [VadEvent.audioEncodingError e]
  else [VadEvent.audioEncodingError "No audio recorded"]) ++
  [VadEvent.continuousRecordingStopped]

/-- `run_continuous_capture` (lines 270-379).  The accumulation loop's exit condition
(size limit, wall-clock limit, cooperative cancellation, or stream end) involves real
time and task concurrency; `buf` stands for whatever samples had been accumulated when
the loop exited, after which lines 345-378 run unconditionally. -/
def run_continuous_capture (cfg : VadConfig) (sr : ℕ) (buf : List ℝ) : List VadEvent :=
  VadEvent.continuousRecordingStart cfg.max_recording_duration_secs ::
    finish_continuous cfg sr buf

/-- `start_system_audio_capture` (lines 47-134) as a sequential state transition:
first the already-capturing check on the task-handle slot, then the optional config
replacement, then speaker-input creation (`device` models the external
`SpeakerInput::new_with_device` outcome), then sample-rate validation, and finally
marking capturing and registering the spawned task (modelled by `task_id`).
Returns the post-call state together with the command result. -/
def start_system_audio_capture (st : AudioState) (vad_config : Option VadConfig)
    (device : Except String Unit) (sr : ℕ) (task_id : ℕ) :
    AudioState × Except String Unit :=
  if st.stream_task.isSome then (st, Except.error "Capture already running")
  else
    let st1 :=
      match vad_config with
      | some config => { st with vad_config := config }
      | none => st
    match device with
    | Except.error e => (st1, Except.error ("Failed to access system audio: " ++ e))
    | Except.ok _ =>
      if sr < 8000 ∨ 96000 < sr then
        (st1, Except.error ("Invalid sample rate: " ++ toString sr ++
          ". Expected 8000-96000 Hz"))
      else
        ({ st1 with is_capturing := true, stream_task := some task_id },
         Except.ok ())

/-- `update_vad_config` (lines 593-610): validate `sensitivity_rms ∈ [0, 1]` and
`max_recording_duration_secs ≤ 3600` before touching the stored config. -/
def update_vad_config (st : AudioState) (config : VadConfig) :
    AudioState × Except String Unit :=
  if config.sensitivity_rms < 0 ∨ 1 < config.sensitivity_rms then
    (st, Except.error "Invalid sensitivity_rms: must be 0.0-1.0")
  else if 3600 < config.max_recording_duration_secs then
    (st, Except.error "Invalid max_recording_duration_secs: must be <= 3600 (1 hour)")
  else ({ st with vad_config := config }, Except.ok ())

/-! ## Basic lemmas about the signal-processing kernels -/

theorem gateSample_zero (t : ℝ) : gateSample t 0 = 0 := by
  unfold gateSample
  split_ifs <;> simp

theorem apply_noise_gate_length (xs : List ℝ) (t : ℝ) :
    (apply_noise_gate xs t).length = xs.length := by
  simp [apply_noise_gate]

theorem apply_noise_gate_replicate_zero (n : ℕ) (t : ℝ) :
    apply_noise_gate (List.replicate n 0) t = List.replicate n 0 := by
  simp [apply_noise_gate, List.map_replicate, gateSample_zero]

theorem foldl_max_abs_replicate (n : ℕ) (a c : ℝ) :
    List.foldl (fun p v => max p |v|) a (List.replicate n c) =
      if n = 0 then a else max a |c| := by
  induction n generalizing a with
  | zero => simp
  | succ k ih =>
    simp only [List.replicate_succ, List.foldl_cons, ih]
    rcases Nat.eq_zero_or_pos k with hk | hk
    · simp [hk]
    · have : k ≠ 0 := Nat.pos_iff_ne_zero.mp hk
      simp [this, max_assoc]

theorem metrics_replicate_zero (n : ℕ) :
    calculate_audio_metrics (List.replicate n (0 : ℝ)) = (0, 0) := by
  unfold calculate_audio_metrics
  simp [List.map_replicate, List.sum_replicate, foldl_max_abs_replicate]

theorem normalize_audio_level_length (xs : List ℝ) (t : ℝ) :
    (normalize_audio_level xs t).length = xs.length := by
  simp only [normalize_audio_level]
  split_ifs with h1 h2
  · simp [h1]
  · rfl
  · simp

theorem normalize_audio_level_ne_nil (xs : List ℝ) (t : ℝ) (h : xs ≠ []) :
    normalize_audio_level xs t ≠ [] := by
  intro hc
  have := normalize_audio_level_length xs t
  rw [hc] at this
  exact h (List.length_eq_zero.mp this.symm)

theorem samples_to_wav_b64_ok (sr : ℕ) (xs : List ℝ)
    (h1 : 8000 ≤ sr) (h2 : sr ≤ 96000) (h3 : xs ≠ []) :
    samples_to_wav_b64 sr xs = Except.ok (b64encode (wavBytes sr xs)) := by
  unfold samples_to_wav_b64
  rw [if_neg (by omega), if_neg h3]

theorem samples_to_wav_b64_err (sr : ℕ) (xs : List ℝ)
    (h : sr < 8000 ∨ 96000 < sr) :
    ∃ e, samples_to_wav_b64 sr xs = Except.error e := by
  unfold samples_to_wav_b64
  rw [if_pos h]
  exact ⟨_, rfl⟩

/-! ## Claim C3 — noise-gate attenuation below the threshold -/

/-- C3 counterexample: the claim quantifies over every sample with `|s| < threshold`;
at `s = 0`, `threshold = 1` the hypothesis `|s| < threshold` holds but the gated
output's magnitude is `0`, which is not strictly less than `|s| = 0`. -/
theorem claim_C3_counterexample :
    (0 : ℝ) < 1 ∧ |(0 : ℝ)| < 1 ∧ ¬ |gateSample 1 0| < |(0 : ℝ)| := by
  refine ⟨by norm_num, by norm_num, ?_⟩
  rw [gateSample_zero]
  simp

/-- C3 (amended): for every `threshold > 0` and every sample `s` with
`0 < |s| < threshold`, the noise gate's output for `s` has magnitude strictly less
than `|s|` and the same (strict) sign as `s`. -/
theorem claim_C3 (t s : ℝ) (h1 : 0 < t) (h2 : 0 < |s|) (h3 : |s| < t) :
    |gateSample t s| < |s| ∧ (0 < s → 0 < gateSample t s) ∧
      (s < 0 → gateSample t s < 0) := by
  have hst : gateSample t s = s * (|s| / t) ^ ((1 : ℝ) / 3) := if_pos h3
  have h0 : 0 < |s| / t := div_pos h2 h1
  have hlt1 : |s| / t < 1 := (div_lt_one h1).mpr h3
  have hr1 : (|s| / t) ^ ((1 : ℝ) / 3) < 1 :=
    Real.rpow_lt_one h0.le hlt1 (by norm_num)
  have hr0 : 0 < (|s| / t) ^ ((1 : ℝ) / 3) := Real.rpow_pos_of_pos h0 _
  refine ⟨?_, fun hs => ?_, fun hs => ?_⟩
  · rw [hst, abs_mul, abs_of_pos hr0]
    have := mul_lt_mul_of_pos_left hr1 h2
    simpa using this
  · rw [hst]; exact mul_pos hs hr0
  · rw [hst]; exact mul_neg_of_neg_of_pos hs hr0

/-- C3 witness: the amended theorem applied at `threshold = 1`, `s = 1/2`. -/
theorem claim_C3_witness :
    (0 : ℝ) < 1 ∧ 0 < |(1 / 2 : ℝ)| ∧ |(1 / 2 : ℝ)| < 1 ∧
      (|gateSample 1 (1 / 2)| < |(1 / 2 : ℝ)| ∧
        (0 < (1 / 2 : ℝ) → 0 < gateSample 1 (1 / 2)) ∧
        ((1 / 2 : ℝ) < 0 → gateSample 1 (1 / 2) < 0)) :=
  ⟨by norm_num, by rw [abs_pos]; norm_num, by rw [abs_lt]; constructor <;> norm_num,
    claim_C3 1 (1 / 2) (by norm_num) (by rw [abs_pos]; norm_num)
      (by rw [abs_lt]; constructor <;> norm_num)⟩

/-! ## Claim C4 — normalization output bound -/

/-- The near-silence passthrough of `normalize_audio_level` (line 421-423): when the
input RMS is below `0.001` the input is returned unchanged. -/
theorem normalize_audio_level_passthrough (xs : List ℝ) (t : ℝ) (hne : xs ≠ [])
    (h : Real.sqrt ((xs.map fun s => s * s).sum / xs.length) < 0.001) :
    normalize_audio_level xs t = xs := by
  unfold normalize_audio_level
  rw [if_neg hne]
  dsimp only
  rw [if_pos h]

/-- C4 counterexample: `normalize_audio_level` returns its input unchanged when the
input RMS is below `0.001`; an input of one sample `2` followed by four million zeros
has RMS `< 0.001`, so the output contains the sample `2` with `|2| > 1`. -/
theorem claim_C4_counterexample :
    (2 : ℝ) ∈ normalize_audio_level ((2 : ℝ) :: List.replicate 4000000 0) 0.1 ∧
      ¬ |(2 : ℝ)| ≤ 1 := by
  constructor
  · have hne : ((2 : ℝ) :: List.replicate 4000000 0) ≠ [] := List.cons_ne_nil _ _
    have h00 : ((0 : ℝ) * 0) = 0 := by norm_num
    have h22 : ((2 : ℝ) * 2) = 4 := by norm_num
    have hpass :
        normalize_audio_level ((2 : ℝ) :: List.replicate 4000000 0) 0.1 =
          (2 : ℝ) :: List.replicate 4000000 0 := by
      refine normalize_audio_level_passthrough _ _ hne ?_
      rw [List.map_cons, List.map_replicate, h00, h22, List.sum_cons,
        List.sum_replicate, smul_zero, add_zero, List.length_cons,
        List.length_replicate]
      rw [Real.sqrt_lt' (by norm_num)]
      norm_num
    rw [hpass]
    exact List.mem_cons_self _ _
  · norm_num

/-- C4 (amended): provided every input sample has magnitude at most `1`, every output
sample `x` of `normalize_audio_level` satisfies `|x| ≤ 1`: the gain is capped at `10`
and any amplified sample with `|amplified| > 1` is soft-saturated into `(-1, 1)`;
the hypothesis is needed because the near-silence path (input RMS `< 0.001`) returns
the input unchanged. -/
theorem normalize_body_le_one (s g : ℝ) :
    |if 1 < |s * g| then Real.sign (s * g) * (1 - Real.exp (-|s * g|))
      else s * g| ≤ 1 := by
  by_cases hamp : 1 < |s * g|
  · rw [if_pos hamp]
    have hexp1 : Real.exp (-|s * g|) ≤ 1 := by
      rw [← Real.exp_zero]
      exact Real.exp_le_exp.mpr (neg_nonpos.mpr (abs_nonneg _))
    have hss : s * g ≠ 0 := by
      intro hz
      rw [hz] at hamp
      norm_num at hamp
    rw [abs_mul]
    have hsign : |Real.sign (s * g)| = 1 := by
      rcases lt_or_gt_of_ne hss with hneg | hpos
      · rw [Real.sign_of_neg hneg]; norm_num
      · rw [Real.sign_of_pos hpos]; norm_num
    rw [hsign, one_mul, abs_of_nonneg (by linarith [Real.exp_pos (-|s * g|)])]
    linarith [Real.exp_pos (-|s * g|)]
  · rw [if_neg hamp]
    exact le_of_not_lt hamp

theorem claim_C4 (samples : List ℝ) (target_rms : ℝ)
    (hin : ∀ s ∈ samples, |s| ≤ 1) :
    ∀ x ∈ normalize_audio_level samples target_rms, |x| ≤ 1 := by
  intro x hx
  unfold normalize_audio_level at hx
  by_cases h1 : samples = []
  · rw [if_pos h1] at hx
    simp at hx
  · rw [if_neg h1] at hx
    dsimp only at hx
    by_cases h2 : Real.sqrt ((samples.map fun s => s * s).sum / samples.length)
        < 0.001
    · rw [if_pos h2] at hx
      exact hin x hx
    · rw [if_neg h2] at hx
      obtain ⟨a, _, hfa⟩ := List.mem_map.mp hx
      rw [← hfa]
      exact normalize_body_le_one a _

/-- C4 witness: the amended theorem applied to a one-sample input `[1/2]`. -/
theorem claim_C4_witness :
    (∀ s ∈ [(1 / 2 : ℝ)], |s| ≤ 1) ∧
      ∀ x ∈ normalize_audio_level [(1 / 2 : ℝ)] 0.1, |x| ≤ 1 :=
  ⟨by intro s hs; simp at hs; rw [hs, abs_of_pos] <;> norm_num,
    claim_C4 [(1 / 2 : ℝ)] 0.1
      (by intro s hs; simp at hs; rw [hs, abs_of_pos] <;> norm_num)⟩

/-! ## Claim C5 — WAV encode success/failure domain -/

/-- C5 counterexample: `sample_rate = 4000` is neither `0` nor above `96000`, and the
input `[1]` is non-empty, yet `samples_to_wav_b64` fails (the code rejects every rate
below `8000`). -/
theorem claim_C5_counterexample :
    (4000 : ℕ) ≠ 0 ∧ ¬ 96000 < (4000 : ℕ) ∧ [(1 : ℝ)] ≠ [] ∧
      ∃ e, samples_to_wav_b64 4000 [(1 : ℝ)] = Except.error e :=
  ⟨by norm_num, by norm_num, by simp,
    samples_to_wav_b64_err 4000 [(1 : ℝ)] (Or.inl (by norm_num))⟩

/-- C5 (amended): the WAV encode operation succeeds exactly when the sample rate lies
in `[8000, 96000]` and the input is non-empty; in particular it fails for empty input,
for `sample_rate = 0`, for `sample_rate > 96000`, and also for every rate below
`8000`. -/
theorem claim_C5 (sr : ℕ) (xs : List ℝ) :
    (∃ out, samples_to_wav_b64 sr xs = Except.ok out) ↔
      8000 ≤ sr ∧ sr ≤ 96000 ∧ xs ≠ [] := by
  constructor
  · rintro ⟨o, ho⟩
    unfold samples_to_wav_b64 at ho
    by_cases h1 : sr < 8000 ∨ 96000 < sr
    · rw [if_pos h1] at ho
      exact absurd ho (by simp)
    · by_cases h2 : xs = []
      · rw [if_neg h1, if_pos h2] at ho
        exact absurd ho (by simp)
      · exact ⟨by omega, by omega, h2⟩
  · rintro ⟨ha, hb, hc⟩
    exact ⟨_, samples_to_wav_b64_ok sr xs ha hb hc⟩

/-! ## Claim C6 — RIFF/WAVE container layout -/

/-- Little-endian reconstruction of a 32-bit field. -/
theorem le32_reconstruct (d : ℕ) :
    d % 256 + 256 * (d / 256 % 256) + 65536 * (d / 65536 % 256) +
      16777216 * (d / 16777216 % 256) = d % 4294967296 := by
  omega

/-- C6: for every successful encode (with the data size below `2^32`, the width of the
RIFF size fields), the output is the base64 encoding of `wavBytes`, which carries
`"RIFF"` at offset 0, `"WAVE"` at offset 8, and a data-chunk size field at byte offset
40 (little-endian) equal to `2 * sample_count`. -/
theorem claim_C6 (sr : ℕ) (xs : List ℝ) (out : String)
    (hok : samples_to_wav_b64 sr xs = Except.ok out)
    (hsize : 2 * xs.length < 4294967296) :
    out = b64encode (wavBytes sr xs) ∧
      (wavBytes sr xs).take 4 = [0x52, 0x49, 0x46, 0x46] ∧
      ((wavBytes sr xs).drop 8).take 4 = [0x57, 0x41, 0x56, 0x45] ∧
      (wavBytes sr xs).getD 40 0 + 256 * (wavBytes sr xs).getD 41 0 +
        65536 * (wavBytes sr xs).getD 42 0 +
        16777216 * (wavBytes sr xs).getD 43 0 = 2 * xs.length := by
  have hout : out = b64encode (wavBytes sr xs) := by
    unfold samples_to_wav_b64 at hok
    by_cases h1 : sr < 8000 ∨ 96000 < sr
    · rw [if_pos h1] at hok
      exact absurd hok (by simp)
    · by_cases h2 : xs = []
      · rw [if_neg h1, if_pos h2] at hok
        exact absurd hok (by simp)
      · rw [if_neg h1, if_neg h2] at hok
        injection hok with h
        exact h.symm
  refine ⟨hout, ?_, ?_, ?_⟩
  · simp [wavBytes, le32, le16]
  · simp [wavBytes, le32, le16]
  · simp [wavBytes, le32, le16]
    omega

/-- C6 witness: the theorem applied to `sample_rate = 8000`, input `[0]`. -/
theorem claim_C6_witness :
    2 * [(0 : ℝ)].length < 4294967296 ∧
      (b64encode (wavBytes 8000 [(0 : ℝ)]) = b64encode (wavBytes 8000 [(0 : ℝ)]) ∧
        (wavBytes 8000 [(0 : ℝ)]).take 4 = [0x52, 0x49, 0x46, 0x46] ∧
        ((wavBytes 8000 [(0 : ℝ)]).drop 8).take 4 = [0x57, 0x41, 0x56, 0x45] ∧
        (wavBytes 8000 [(0 : ℝ)]).getD 40 0 +
          256 * (wavBytes 8000 [(0 : ℝ)]).getD 41 0 +
          65536 * (wavBytes 8000 [(0 : ℝ)]).getD 42 0 +
          16777216 * (wavBytes 8000 [(0 : ℝ)]).getD 43 0 = 2 * [(0 : ℝ)].length) :=
  ⟨by norm_num,
    claim_C6 8000 [(0 : ℝ)] (b64encode (wavBytes 8000 [(0 : ℝ)]))
      (samples_to_wav_b64_ok 8000 [(0 : ℝ)] (by norm_num) (by norm_num)
        (List.cons_ne_nil _ _))
      (by norm_num)⟩

/-! ## Claim C7 — double start fails with AlreadyCapturing -/

/-- A registered session makes `start` fail immediately, leaving the state intact
(the check at lines 55-66 precedes every mutation). -/
theorem start_already_capturing (st : AudioState) (c : Option VadConfig)
    (dev : Except String Unit) (sr t : ℕ) (h : st.stream_task.isSome = true) :
    start_system_audio_capture st c dev sr t =
      (st, Except.error "Capture already running") := by
  unfold start_system_audio_capture
  rw [if_pos h]

/-- A successful `start` registers the spawned task handle. -/
theorem start_ok_registers (st : AudioState) (c : Option VadConfig)
    (dev : Except String Unit) (sr t : ℕ)
    (h : (start_system_audio_capture st c dev sr t).2 = Except.ok ()) :
    (start_system_audio_capture st c dev sr t).1.stream_task = some t := by
  unfold start_system_audio_capture at h ⊢
  by_cases h1 : st.stream_task.isSome
  · rw [if_pos h1] at h ⊢
    simp at h
  · rw [if_neg h1] at h ⊢
    cases dev with
    | error e => simp at h
    | ok _ =>
      dsimp only at h ⊢
      by_cases h2 : sr < 8000 ∨ 96000 < sr
      · rw [if_pos h2] at h
        simp at h
      · rw [if_neg h2] at h ⊢

/-- C7: if a capture session is already registered, `start` fails with the
`AlreadyCapturing` error (`"Capture already running"`) and leaves the task handle,
stored config and capturing flag unchanged; in particular, a second sequential
`start` after a successful one fails that way and changes nothing. -/
theorem claim_C7 :
    (∀ (st : AudioState) (c : Option VadConfig) (dev : Except String Unit)
      (sr t : ℕ), st.stream_task.isSome = true →
      start_system_audio_capture st c dev sr t =
        (st, Except.error "Capture already running")) ∧
    (∀ (st : AudioState) (c1 c2 : Option VadConfig)
      (d1 d2 : Except String Unit) (sr1 sr2 t1 t2 : ℕ),
      (start_system_audio_capture st c1 d1 sr1 t1).2 = Except.ok () →
      start_system_audio_capture (start_system_audio_capture st c1 d1 sr1 t1).1
          c2 d2 sr2 t2 =
        ((start_system_audio_capture st c1 d1 sr1 t1).1,
          Except.error "Capture already running")) := by
  constructor
  · exact start_already_capturing
  · intro st c1 c2 d1 d2 sr1 sr2 t1 t2 hok
    apply start_already_capturing
    rw [start_ok_registers st c1 d1 sr1 t1 hok]
    rfl

/-- C7 witness: a state with a registered task rejects `start`; and after a concrete
successful `start` from the empty state, a second `start` is rejected. -/
theorem claim_C7_witness :
    (start_system_audio_capture ⟨some 0, true, VadConfig.default⟩ none
        (Except.ok ()) 44100 1 =
      (⟨some 0, true, VadConfig.default⟩, Except.error "Capture already running")) ∧
    (start_system_audio_capture ⟨none, false, VadConfig.default⟩ none
        (Except.ok ()) 44100 5).2 = Except.ok () ∧
    (start_system_audio_capture
        (start_system_audio_capture ⟨none, false, VadConfig.default⟩ none
          (Except.ok ()) 44100 5).1 none (Except.ok ()) 44100 6 =
      ((start_system_audio_capture ⟨none, false, VadConfig.default⟩ none
          (Except.ok ()) 44100 5).1,
        Except.error "Capture already running")) := by
  have hok : (start_system_audio_capture ⟨none, false, VadConfig.default⟩ none
      (Except.ok ()) 44100 5).2 = Except.ok () := by
    unfold start_system_audio_capture
    rw [if_neg (by simp)]
    dsimp only
    rw [if_neg (by norm_num)]
  exact ⟨claim_C7.1 _ none (Except.ok ()) 44100 1 rfl, hok,
    claim_C7.2 _ none none (Except.ok ()) (Except.ok ()) 44100 44100 5 6 hok⟩

/-! ## Claim C8 — configuration validation -/

/-- A config violating the documented invariant (`sensitivity_rms = 2`). -/
def invalidCfg : VadConfig := { VadConfig.default with sensitivity_rms := 2 }

/-- C8 counterexample: `start_system_audio_capture` performs no config validation
(lines 68-75 store any provided config): starting from an idle state with the invalid
config succeeds, stores the invalid config, and registers (spawns) a task — so the
claim that an out-of-range config is rejected by `start` before any task is spawned,
leaving the stored config unchanged, is false. -/
theorem claim_C8_counterexample :
    1 < invalidCfg.sensitivity_rms ∧
      (start_system_audio_capture ⟨none, false, VadConfig.default⟩
          (some invalidCfg) (Except.ok ()) 44100 7).2 = Except.ok () ∧
      (start_system_audio_capture ⟨none, false, VadConfig.default⟩
          (some invalidCfg) (Except.ok ()) 44100 7).1.vad_config = invalidCfg ∧
      (start_system_audio_capture ⟨none, false, VadConfig.default⟩
          (some invalidCfg) (Except.ok ()) 44100 7).1.stream_task = some 7 := by
  refine ⟨?_, ?_, ?_, ?_⟩
  · show (1 : ℝ) < 2
    norm_num
  all_goals
    unfold start_system_audio_capture
    rw [if_neg (by simp)]
    dsimp only
    rw [if_neg (by norm_num)]

/-- C8 (amended): a configuration with `sensitivity_rms` outside `[0, 1]` or
`max_recording_duration_secs > 3600` is rejected synchronously by `updateConfig`
(which never spawns a task), and on rejection the stored state — in particular the
active `VadConfig` — is left unchanged.  `start`, by contrast, stores a provided
config without validating it. -/
theorem claim_C8 (st : AudioState) (config : VadConfig)
    (h : config.sensitivity_rms < 0 ∨ 1 < config.sensitivity_rms ∨
      3600 < config.max_recording_duration_secs) :
    (update_vad_config st config).1 = st ∧
      ∃ e, (update_vad_config st config).2 = Except.error e := by
  unfold update_vad_config
  by_cases h1 : config.sensitivity_rms < 0 ∨ 1 < config.sensitivity_rms
  · rw [if_pos h1]
    exact ⟨rfl, _, rfl⟩
  · have h3 : 3600 < config.max_recording_duration_secs := by tauto
    rw [if_neg h1, if_pos h3]
    exact ⟨rfl, _, rfl⟩

/-- C8 witness: `updateConfig` rejects `invalidCfg` and leaves the state unchanged. -/
theorem claim_C8_witness :
    (invalidCfg.sensitivity_rms < 0 ∨ 1 < invalidCfg.sensitivity_rms ∨
      3600 < invalidCfg.max_recording_duration_secs) ∧
      ((update_vad_config ⟨none, false, VadConfig.default⟩ invalidCfg).1 =
          ⟨none, false, VadConfig.default⟩ ∧
        ∃ e, (update_vad_config ⟨none, false, VadConfig.default⟩ invalidCfg).2 =
          Except.error e) :=
  ⟨Or.inr (Or.inl (by show (1 : ℝ) < 2; norm_num)),
    claim_C8 ⟨none, false, VadConfig.default⟩ invalidCfg
      (Or.inr (Or.inl (by show (1 : ℝ) < 2; norm_num)))⟩

/-! ## Claim C9 — continuous-capture stop processing -/

/-- C9: whatever made the continuous-capture loop stop, the post-loop code emits:
for a non-empty buffer, the gated, normalized, WAV-encoded buffer as `speech-detected`
(or `audio-encoding-error` if encoding fails); for an empty buffer,
`audio-encoding-error "No audio recorded"`; and `continuous-recording-stopped` last
in every case. -/
theorem claim_C9 (cfg : VadConfig) (sr : ℕ) (buf : List ℝ) :
    (run_continuous_capture cfg sr buf).getLast? =
        some VadEvent.continuousRecordingStopped ∧
      (buf = [] → finish_continuous cfg sr buf =
        [VadEvent.audioEncodingError "No audio recorded",
          VadEvent.continuousRecordingStopped]) ∧
      (buf ≠ [] → 8000 ≤ sr → sr ≤ 96000 → finish_continuous cfg sr buf =
        [VadEvent.speechDetected (b64encode (wavBytes sr (normalize_audio_level
            (apply_noise_gate buf cfg.noise_gate_threshold) 0.1))),
          VadEvent.continuousRecordingStopped]) ∧
      (buf ≠ [] → sr < 8000 ∨ 96000 < sr → ∃ e, finish_continuous cfg sr buf =
        [VadEvent.audioEncodingError e, VadEvent.continuousRecordingStopped]) := by
  by_cases hne : buf = []
  · subst hne
    have hfin : finish_continuous cfg sr [] =
        [VadEvent.audioEncodingError "No audio recorded",
          VadEvent.continuousRecordingStopped] := by
      unfold finish_continuous
      rw [if_neg (by simp)]
      rfl
    refine ⟨?_, fun _ => hfin, fun hc => absurd rfl hc, fun hc => absurd rfl hc⟩
    unfold run_continuous_capture
    rw [hfin]
    rfl
  · have hgne : normalize_audio_level
        (apply_noise_gate buf cfg.noise_gate_threshold) 0.1 ≠ [] := by
      apply normalize_audio_level_ne_nil
      intro hc
      have := apply_noise_gate_length buf cfg.noise_gate_threshold
      rw [hc] at this
      exact hne (List.length_eq_zero.mp this.symm)
    by_cases hsr : sr < 8000 ∨ 96000 < sr
    · obtain ⟨e, he⟩ := samples_to_wav_b64_err sr
        (normalize_audio_level (apply_noise_gate buf cfg.noise_gate_threshold) 0.1)
        hsr
      have hfin : finish_continuous cfg sr buf =
          [VadEvent.audioEncodingError e, VadEvent.continuousRecordingStopped] := by
        unfold finish_continuous
        rw [if_pos hne]
        dsimp only
        rw [he]
        rfl
      refine ⟨?_, fun hb => absurd hb hne, fun _ h1 h2 => by omega,
        fun _ _ => ⟨e, hfin⟩⟩
      unfold run_continuous_capture
      rw [hfin]
      rfl
    · push_neg at hsr
      have hok := samples_to_wav_b64_ok sr
        (normalize_audio_level (apply_noise_gate buf cfg.noise_gate_threshold) 0.1)
        hsr.1 hsr.2 hgne
      have hfin : finish_continuous cfg sr buf =
          [VadEvent.speechDetected (b64encode (wavBytes sr (normalize_audio_level
              (apply_noise_gate buf cfg.noise_gate_threshold) 0.1))),
            VadEvent.continuousRecordingStopped] := by
        unfold finish_continuous
        rw [if_pos hne]
        dsimp only
        rw [hok]
        rfl
      refine ⟨?_, fun hb => absurd hb hne, fun _ _ _ => hfin, fun _ h => by omega⟩
      unfold run_continuous_capture
      rw [hfin]
      rfl

/-- C9 witness: the theorem applied at a valid rate with a one-sample buffer. -/
theorem claim_C9_witness :
    (run_continuous_capture VadConfig.default 16000 [(1 / 2 : ℝ)]).getLast? =
        some VadEvent.continuousRecordingStopped ∧
      finish_continuous VadConfig.default 16000 [(1 / 2 : ℝ)] =
        [VadEvent.speechDetected (b64encode (wavBytes 16000 (normalize_audio_level
            (apply_noise_gate [(1 / 2 : ℝ)]
              VadConfig.default.noise_gate_threshold) 0.1))),
          VadEvent.continuousRecordingStopped] :=
  ⟨(claim_C9 VadConfig.default 16000 [(1 / 2 : ℝ)]).1,
    (claim_C9 VadConfig.default 16000 [(1 / 2 : ℝ)]).2.2.1
      (List.cons_ne_nil _ _) (by norm_num) (by norm_num)⟩



/-! ## Step lemmas for the VAD state machine -/

theorem gateSample_id_of_zero_threshold (s : ℝ) : gateSample 0 s = s :=
  if_neg (not_lt.mpr (abs_nonneg s))

theorem apply_noise_gate_zero_threshold (xs : List ℝ) :
    apply_noise_gate xs 0 = xs := by
  unfold apply_noise_gate
  rw [List.map_congr_left fun s _ => gateSample_id_of_zero_threshold s]
  exact List.map_id _

/-- An all-zero hop is classified as silence whenever both thresholds are
nonnegative. -/
theorem zero_hop_not_speech (cfg : VadConfig) (n : ℕ)
    (hsens : 0 ≤ cfg.sensitivity_rms) (hpt : 0 ≤ cfg.peak_threshold) :
    ¬(cfg.sensitivity_rms <
        (calculate_audio_metrics
          (apply_noise_gate (List.replicate n 0) cfg.noise_gate_threshold)).1 ∨
      cfg.peak_threshold <
        (calculate_audio_metrics
          (apply_noise_gate (List.replicate n 0) cfg.noise_gate_threshold)).2) := by
  rw [apply_noise_gate_replicate_zero, metrics_replicate_zero]
  rintro (h | h) <;> simp at h <;> linarith

/-- Idle silent hop (lines 250-263): only the rolling pre-speech buffer changes. -/
theorem processHop_silent_idle (cfg : VadConfig) (sr : ℕ) (st : VadState)
    (hop : List ℝ) (hidle : st.in_speech = false)
    (hsil : ¬(cfg.sensitivity_rms <
        (calculate_audio_metrics (apply_noise_gate hop cfg.noise_gate_threshold)).1 ∨
      cfg.peak_threshold <
        (calculate_audio_metrics (apply_noise_gate hop cfg.noise_gate_threshold)).2)) :
    processHop cfg sr st hop =
      ({ st with
         pre_speech :=
          (st.pre_speech ++ apply_noise_gate hop cfg.noise_gate_threshold).drop
            ((st.pre_speech ++ apply_noise_gate hop cfg.noise_gate_threshold).length -
              cfg.pre_speech_chunks * cfg.hop_size) }, []) := by
  unfold processHop
  dsimp only
  rw [if_neg hsil]
  unfold vadSilenceStep
  rw [hidle, if_neg Bool.false_ne_true]

/-- Speech hop from `Idle` (lines 171-187) without reaching the safety cap:
`speech-start` is emitted and the pre-speech buffer is drained into the utterance. -/
theorem processHop_speech_start (cfg : VadConfig) (sr : ℕ) (st : VadState)
    (hop : List ℝ) (hidle : st.in_speech = false)
    (hsp : cfg.sensitivity_rms <
        (calculate_audio_metrics (apply_noise_gate hop cfg.noise_gate_threshold)).1 ∨
      cfg.peak_threshold <
        (calculate_audio_metrics (apply_noise_gate hop cfg.noise_gate_threshold)).2)
    (hcap : ((st.speech_buffer ++ st.pre_speech) ++
        apply_noise_gate hop cfg.noise_gate_threshold).length ≤ sr * 30) :
    processHop cfg sr st hop =
      ({ pre_speech := [],
         speech_buffer := (st.speech_buffer ++ st.pre_speech) ++
           apply_noise_gate hop cfg.noise_gate_threshold,
         in_speech := true, silence_chunks := 0, speech_chunks := 1 },
       [VadEvent.speechStart]) := by
  unfold processHop
  dsimp only
  rw [if_pos hsp]
  unfold vadSpeechStep
  rw [hidle, if_neg Bool.false_ne_true]
  dsimp only
  rw [if_neg (not_lt.mpr hcap)]

/-- Speech hop while already `InSpeech` (lines 171-187) without reaching the safety
cap. -/
theorem processHop_speech_cont (cfg : VadConfig) (sr : ℕ) (st : VadState)
    (hop : List ℝ) (hin : st.in_speech = true)
    (hsp : cfg.sensitivity_rms <
        (calculate_audio_metrics (apply_noise_gate hop cfg.noise_gate_threshold)).1 ∨
      cfg.peak_threshold <
        (calculate_audio_metrics (apply_noise_gate hop cfg.noise_gate_threshold)).2)
    (hcap : (st.speech_buffer ++
        apply_noise_gate hop cfg.noise_gate_threshold).length ≤ sr * 30) :
    processHop cfg sr st hop =
      ({ st with
         speech_buffer := st.speech_buffer ++
           apply_noise_gate hop cfg.noise_gate_threshold,
         silence_chunks := 0, speech_chunks := st.speech_chunks + 1 }, []) := by
  unfold processHop
  dsimp only
  rw [if_pos hsp]
  unfold vadSpeechStep
  rw [hin, if_pos rfl]
  dsimp only
  rw [if_neg (not_lt.mpr hcap), hin]

/-- Speech hop while `InSpeech` that pushes the utterance past the 30-second safety
cap (lines 189-201): the buffer is normalized, encoded and emitted only when encoding
succeeds, then cleared, and the machine returns to `Idle`; `silence_chunks` is `0`
because line 187 just reset it. -/
theorem processHop_speech_capflush (cfg : VadConfig) (sr : ℕ) (st : VadState)
    (hop : List ℝ) (hin : st.in_speech = true)
    (hsp : cfg.sensitivity_rms <
        (calculate_audio_metrics (apply_noise_gate hop cfg.noise_gate_threshold)).1 ∨
      cfg.peak_threshold <
        (calculate_audio_metrics (apply_noise_gate hop cfg.noise_gate_threshold)).2)
    (hcap : sr * 30 < (st.speech_buffer ++
        apply_noise_gate hop cfg.noise_gate_threshold).length) :
    processHop cfg sr st hop =
      ({ st with
         speech_buffer := [], in_speech := false,
         silence_chunks := 0, speech_chunks := 0 },
       match samples_to_wav_b64 sr (normalize_audio_level
          (st.speech_buffer ++ apply_noise_gate hop cfg.noise_gate_threshold) 0.1) with
        | Except.ok b64 => [VadEvent.speechDetected b64]
        | Except.error _ => []) := by
  unfold processHop
  dsimp only
  rw [if_pos hsp]
  unfold vadSpeechStep
  rw [hin, if_pos rfl]
  dsimp only
  rw [if_pos hcap, List.nil_append]

/-- Silent hop while `InSpeech` below the hangover threshold (lines 202-211): the
frame is kept and the silence counter advances. -/
theorem processHop_silent_inspeech (cfg : VadConfig) (sr : ℕ) (st : VadState)
    (hop : List ℝ) (hin : st.in_speech = true)
    (hsil : ¬(cfg.sensitivity_rms <
        (calculate_audio_metrics (apply_noise_gate hop cfg.noise_gate_threshold)).1 ∨
      cfg.peak_threshold <
        (calculate_audio_metrics (apply_noise_gate hop cfg.noise_gate_threshold)).2))
    (hbelow : st.silence_chunks + 1 < cfg.silence_chunks) :
    processHop cfg sr st hop =
      ({ st with
         silence_chunks := st.silence_chunks + 1,
         speech_buffer := st.speech_buffer ++
           apply_noise_gate hop cfg.noise_gate_threshold }, []) := by
  unfold processHop
  dsimp only
  rw [if_neg hsil]
  unfold vadSilenceStep
  rw [hin, if_pos rfl]
  dsimp only
  rw [if_neg (by omega)]

/-- Hangover completion with an accepted utterance (lines 211-236): trailing silence
is trimmed, the remainder is normalized and encoded, `speech-detected` is emitted on
success and `audio-encoding-error` on failure; the machine resets to `Idle`. -/
theorem processHop_hangover_accept (cfg : VadConfig) (sr : ℕ) (st : VadState)
    (hop : List ℝ) (hin : st.in_speech = true)
    (hsil : ¬(cfg.sensitivity_rms <
        (calculate_audio_metrics (apply_noise_gate hop cfg.noise_gate_threshold)).1 ∨
      cfg.peak_threshold <
        (calculate_audio_metrics (apply_noise_gate hop cfg.noise_gate_threshold)).2))
    (hhang : cfg.silence_chunks ≤ st.silence_chunks + 1)
    (hmin : cfg.min_speech_chunks ≤ st.speech_chunks)
    (hne : st.speech_buffer ++ apply_noise_gate hop cfg.noise_gate_threshold ≠ []) :
    processHop cfg sr st hop =
      ({ st with
         speech_buffer := [], in_speech := false,
         silence_chunks := 0, speech_chunks := 0 },
       match samples_to_wav_b64 sr (normalize_audio_level
          (if (st.silence_chunks + 1) * cfg.hop_size - sr * 15 / 100 <
              (st.speech_buffer ++
                apply_noise_gate hop cfg.noise_gate_threshold).length then
            (st.speech_buffer ++ apply_noise_gate hop cfg.noise_gate_threshold).take
              ((st.speech_buffer ++
                  apply_noise_gate hop cfg.noise_gate_threshold).length -
                ((st.silence_chunks + 1) * cfg.hop_size - sr * 15 / 100))
          else st.speech_buffer ++ apply_noise_gate hop cfg.noise_gate_threshold)
          0.1) with
        | Except.ok b64 => [VadEvent.speechDetected b64]
        | Except.error _ =>
          [VadEvent.audioEncodingError "Failed to encode speech"]) := by
  unfold processHop
  dsimp only
  rw [if_neg hsil]
  unfold vadSilenceStep
  rw [hin, if_pos rfl]
  dsimp only
  rw [if_pos hhang, if_pos ⟨hmin, hne⟩]

/-- Hangover completion with a rejected utterance (lines 237-242): too few speech
frames (or an empty buffer) yields a `speech-discarded` notification and a reset. -/
theorem processHop_hangover_discard (cfg : VadConfig) (sr : ℕ) (st : VadState)
    (hop : List ℝ) (hin : st.in_speech = true)
    (hsil : ¬(cfg.sensitivity_rms <
        (calculate_audio_metrics (apply_noise_gate hop cfg.noise_gate_threshold)).1 ∨
      cfg.peak_threshold <
        (calculate_audio_metrics (apply_noise_gate hop cfg.noise_gate_threshold)).2))
    (hhang : cfg.silence_chunks ≤ st.silence_chunks + 1)
    (hrej : ¬(cfg.min_speech_chunks ≤ st.speech_chunks ∧
      st.speech_buffer ++ apply_noise_gate hop cfg.noise_gate_threshold ≠ [])) :
    processHop cfg sr st hop =
      ({ st with
         speech_buffer := [], in_speech := false,
         silence_chunks := 0, speech_chunks := 0 },
       [VadEvent.speechDiscarded "Audio too short (likely background noise)"]) := by
  unfold processHop
  dsimp only
  rw [if_neg hsil]
  unfold vadSilenceStep
  rw [hin, if_pos rfl]
  dsimp only
  rw [if_pos hhang, if_neg hrej]

theorem processHops_nil (cfg : VadConfig) (sr : ℕ) (st : VadState) :
    processHops cfg sr st [] = (st, []) := rfl

theorem processHops_cons (cfg : VadConfig) (sr : ℕ) (st : VadState)
    (h : List ℝ) (rest : List (List ℝ)) :
    processHops cfg sr st (h :: rest) =
      ((processHops cfg sr (processHop cfg sr st h).1 rest).1,
        (processHop cfg sr st h).2 ++
          (processHops cfg sr (processHop cfg sr st h).1 rest).2) := rfl

theorem processHops_append (cfg : VadConfig) (sr : ℕ) (st : VadState)
    (l1 l2 : List (List ℝ)) :
    processHops cfg sr st (l1 ++ l2) =
      ((processHops cfg sr (processHops cfg sr st l1).1 l2).1,
        (processHops cfg sr st l1).2 ++
          (processHops cfg sr (processHops cfg sr st l1).1 l2).2) := by
  induction l1 generalizing st with
  | nil => simp [processHops_nil, processHops_cons]
  | cons h rest ih =>
    rw [List.cons_append, processHops_cons, processHops_cons, ih]
    simp [List.append_assoc]

/-- `chunkList` inverts `flatten` on uniformly hop-sized frames. -/
theorem chunkList_flatten (hop : ℕ) (hpos : 0 < hop) (hs : List (List ℝ))
    (hall : ∀ h ∈ hs, h.length = hop) :
    chunkList hop hs.flatten = hs := by
  induction hs with
  | nil =>
    rw [List.flatten_nil]
    unfold chunkList
    rw [dif_neg (by rintro ⟨h1, h2⟩; simp at h2; omega)]
  | cons h rest ih =>
    have hh : h.length = hop := hall h (List.mem_cons_self _ _)
    have hlen : hop ≤ (h :: rest).flatten.length := by
      rw [List.flatten_cons, List.length_append, hh]
      omega
    unfold chunkList
    rw [dif_pos ⟨hpos, hlen⟩, List.flatten_cons, List.take_left' hh,
      List.drop_left' hh]
    rw [ih fun g hg => hall g (List.mem_cons_of_mem _ hg)]


/-! ## Phase lemmas for Scenario A -/

/-- A run of `k` all-zero hops while idle: state fields other than the pre-speech
buffer are unchanged, the pre-speech buffer stays within its capacity, and nothing is
emitted. -/
theorem processHops_idle_silence (cfg : VadConfig) (sr : ℕ)
    (hsens : 0 ≤ cfg.sensitivity_rms) (hpt : 0 ≤ cfg.peak_threshold) :
    ∀ (k : ℕ) (st : VadState), st.in_speech = false →
      st.pre_speech.length ≤ cfg.pre_speech_chunks * cfg.hop_size →
      (processHops cfg sr st
          (List.replicate k (List.replicate cfg.hop_size 0))).1.in_speech = false ∧
      (processHops cfg sr st
          (List.replicate k (List.replicate cfg.hop_size 0))).1.speech_buffer =
        st.speech_buffer ∧
      (processHops cfg sr st
          (List.replicate k (List.replicate cfg.hop_size 0))).1.silence_chunks =
        st.silence_chunks ∧
      (processHops cfg sr st
          (List.replicate k (List.replicate cfg.hop_size 0))).1.speech_chunks =
        st.speech_chunks ∧
      (processHops cfg sr st
          (List.replicate k (List.replicate cfg.hop_size 0))).1.pre_speech.length ≤
        cfg.pre_speech_chunks * cfg.hop_size ∧
      (processHops cfg sr st
          (List.replicate k (List.replicate cfg.hop_size 0))).2 = [] := by
  intro k
  induction k with
  | zero =>
    intro st h1 h2
    rw [List.replicate_zero]
    exact ⟨h1, rfl, rfl, rfl, h2, rfl⟩
  | succ n ih =>
    intro st h1 h2
    rw [List.replicate_succ, processHops_cons,
      processHop_silent_idle cfg sr st _ h1
        (zero_hop_not_speech cfg _ hsens hpt)]
    dsimp only
    have hlen : ((st.pre_speech ++
        apply_noise_gate (List.replicate cfg.hop_size 0)
          cfg.noise_gate_threshold).drop
        ((st.pre_speech ++
            apply_noise_gate (List.replicate cfg.hop_size 0)
              cfg.noise_gate_threshold).length -
          cfg.pre_speech_chunks * cfg.hop_size)).length ≤
        cfg.pre_speech_chunks * cfg.hop_size := by
      rw [List.length_drop]
      omega
    obtain ⟨i1, i2, i3, i4, i5, i6⟩ := ih
      { st with
        pre_speech :=
          (st.pre_speech ++ apply_noise_gate (List.replicate cfg.hop_size 0)
            cfg.noise_gate_threshold).drop
            ((st.pre_speech ++ apply_noise_gate (List.replicate cfg.hop_size 0)
                cfg.noise_gate_threshold).length -
              cfg.pre_speech_chunks * cfg.hop_size) } h1 hlen
    exact ⟨i1, i2, i3, i4, i5, by rw [i6]; rfl⟩

/-- A run of speech-classified hops while already in speech with a zero silence
counter and without reaching the safety cap: nothing is emitted, the counters and
the utterance length track the run. -/
theorem processHops_speech_run (cfg : VadConfig) (sr : ℕ) :
    ∀ (hops : List (List ℝ)) (st : VadState), st.in_speech = true →
      st.silence_chunks = 0 →
      (∀ h ∈ hops, h.length = cfg.hop_size ∧
        (cfg.sensitivity_rms <
            (calculate_audio_metrics
              (apply_noise_gate h cfg.noise_gate_threshold)).1 ∨
          cfg.peak_threshold <
            (calculate_audio_metrics
              (apply_noise_gate h cfg.noise_gate_threshold)).2)) →
      st.speech_buffer.length + hops.length * cfg.hop_size ≤ sr * 30 →
      (processHops cfg sr st hops).1.in_speech = true ∧
      (processHops cfg sr st hops).1.pre_speech = st.pre_speech ∧
      (processHops cfg sr st hops).1.silence_chunks = 0 ∧
      (processHops cfg sr st hops).1.speech_chunks =
        st.speech_chunks + hops.length ∧
      (processHops cfg sr st hops).1.speech_buffer.length =
        st.speech_buffer.length + hops.length * cfg.hop_size ∧
      (processHops cfg sr st hops).2 = [] := by
  intro hops
  induction hops with
  | nil =>
    intro st h1 h2 _ _
    rw [processHops_nil]
    exact ⟨h1, rfl, h2, by simp, by simp, rfl⟩
  | cons h rest ih =>
    intro st h1 h2 hall hcap
    have hh := hall h (List.mem_cons_self _ _)
    have hglen : (apply_noise_gate h cfg.noise_gate_threshold).length =
        cfg.hop_size := by rw [apply_noise_gate_length, hh.1]
    have hblen : (st.speech_buffer ++
        apply_noise_gate h cfg.noise_gate_threshold).length =
        st.speech_buffer.length + cfg.hop_size := by
      rw [List.length_append, hglen]
    rw [List.length_cons, Nat.succ_mul] at hcap
    have hcap1 : (st.speech_buffer ++
        apply_noise_gate h cfg.noise_gate_threshold).length ≤ sr * 30 := by
      rw [hblen]
      linarith [Nat.zero_le (rest.length * cfg.hop_size)]
    rw [processHops_cons, processHop_speech_cont cfg sr st h h1 hh.2 hcap1]
    dsimp only
    have hcap2 : (st.speech_buffer ++
        apply_noise_gate h cfg.noise_gate_threshold).length +
        rest.length * cfg.hop_size ≤ sr * 30 := by
      rw [hblen]
      linarith
    obtain ⟨i1, i2, i3, i4, i5, i6⟩ := ih
      { st with
        speech_buffer := st.speech_buffer ++
          apply_noise_gate h cfg.noise_gate_threshold,
        silence_chunks := 0, speech_chunks := st.speech_chunks + 1 }
      h1 rfl (fun g hg => hall g (List.mem_cons_of_mem _ hg)) hcap2
    refine ⟨i1, i2, i3, ?_, ?_, by rw [i6]; rfl⟩
    · rw [i4]
      dsimp only
      rw [List.length_cons]
      omega
    · rw [i5]
      dsimp only
      rw [hblen, List.length_cons, Nat.succ_mul]
      linarith

/-- A run of `k` all-zero hops while in speech, strictly below the hangover
threshold: silence accumulates, the utterance keeps growing, nothing is emitted. -/
theorem processHops_inspeech_silence (cfg : VadConfig) (sr : ℕ)
    (hsens : 0 ≤ cfg.sensitivity_rms) (hpt : 0 ≤ cfg.peak_threshold) :
    ∀ (k : ℕ) (st : VadState), st.in_speech = true →
      st.silence_chunks + k < cfg.silence_chunks →
      (processHops cfg sr st
          (List.replicate k (List.replicate cfg.hop_size 0))).1.in_speech = true ∧
      (processHops cfg sr st
          (List.replicate k (List.replicate cfg.hop_size 0))).1.pre_speech =
        st.pre_speech ∧
      (processHops cfg sr st
          (List.replicate k (List.replicate cfg.hop_size 0))).1.silence_chunks =
        st.silence_chunks + k ∧
      (processHops cfg sr st
          (List.replicate k (List.replicate cfg.hop_size 0))).1.speech_chunks =
        st.speech_chunks ∧
      (processHops cfg sr st
          (List.replicate k (List.replicate cfg.hop_size 0))).1.speech_buffer.length =
        st.speech_buffer.length + k * cfg.hop_size ∧
      (processHops cfg sr st
          (List.replicate k (List.replicate cfg.hop_size 0))).2 = [] := by
  intro k
  induction k with
  | zero =>
    intro st h1 _
    rw [List.replicate_zero]
    exact ⟨h1, rfl, by simp [processHops_nil], rfl, by simp [processHops_nil], rfl⟩
  | succ n ih =>
    intro st h1 h2
    rw [List.replicate_succ, processHops_cons,
      processHop_silent_inspeech cfg sr st _ h1
        (zero_hop_not_speech cfg _ hsens hpt) (by omega)]
    dsimp only
    obtain ⟨i1, i2, i3, i4, i5, i6⟩ := ih
      { st with
        silence_chunks := st.silence_chunks + 1,
        speech_buffer := st.speech_buffer ++
          apply_noise_gate (List.replicate cfg.hop_size 0)
            cfg.noise_gate_threshold }
      h1 (by dsimp only; omega)
    refine ⟨i1, i2, ?_, i4, ?_, by rw [i6]; rfl⟩
    · rw [i3]
      dsimp only
      omega
    · rw [i5]
      dsimp only
      rw [List.length_append, apply_noise_gate_length, List.length_replicate,
        Nat.succ_mul]
      linarith

/-- A non-empty run of speech-classified hops from an idle state with an empty
utterance buffer, staying below the safety cap: exactly one `speech-start` is
emitted, the machine ends `InSpeech` with `speech_chunks` equal to the run length and
the utterance holding the drained pre-speech buffer plus the run. -/
theorem processHops_speech_phase (cfg : VadConfig) (sr : ℕ)
    (hops : List (List ℝ)) (st : VadState)
    (hidle : st.in_speech = false) (hbuf : st.speech_buffer = [])
    (hall : ∀ h ∈ hops, h.length = cfg.hop_size ∧
      (cfg.sensitivity_rms <
          (calculate_audio_metrics (apply_noise_gate h cfg.noise_gate_threshold)).1 ∨
        cfg.peak_threshold <
          (calculate_audio_metrics (apply_noise_gate h cfg.noise_gate_threshold)).2))
    (hne : hops ≠ [])
    (hcap : st.pre_speech.length + hops.length * cfg.hop_size ≤ sr * 30) :
    (processHops cfg sr st hops).1.in_speech = true ∧
    (processHops cfg sr st hops).1.pre_speech = [] ∧
    (processHops cfg sr st hops).1.silence_chunks = 0 ∧
    (processHops cfg sr st hops).1.speech_chunks = hops.length ∧
    (processHops cfg sr st hops).1.speech_buffer.length =
      st.pre_speech.length + hops.length * cfg.hop_size ∧
    (processHops cfg sr st hops).2 = [VadEvent.speechStart] := by
  cases hops with
  | nil => exact absurd rfl hne
  | cons h0 rest =>
    have hh0 := hall h0 (List.mem_cons_self _ _)
    have hg0 : (apply_noise_gate h0 cfg.noise_gate_threshold).length =
        cfg.hop_size := by rw [apply_noise_gate_length, hh0.1]
    rw [List.length_cons, Nat.succ_mul] at hcap
    have hcap0 : ((st.speech_buffer ++ st.pre_speech) ++
        apply_noise_gate h0 cfg.noise_gate_threshold).length ≤ sr * 30 := by
      rw [List.length_append, List.length_append, hbuf, hg0]
      dsimp only [List.length_nil]
      linarith [Nat.zero_le (rest.length * cfg.hop_size)]
    rw [processHops_cons, processHop_speech_start cfg sr st h0 hidle hh0.2 hcap0]
    dsimp only
    have hlen1 : ((st.speech_buffer ++ st.pre_speech) ++
        apply_noise_gate h0 cfg.noise_gate_threshold).length =
        st.pre_speech.length + cfg.hop_size := by
      rw [List.length_append, List.length_append, hbuf, hg0]
      dsimp only [List.length_nil]
      omega
    obtain ⟨b1, b2, b3, b4, b5, b6⟩ := processHops_speech_run cfg sr rest
      { pre_speech := [],
        speech_buffer := (st.speech_buffer ++ st.pre_speech) ++
          apply_noise_gate h0 cfg.noise_gate_threshold,
        in_speech := true, silence_chunks := 0, speech_chunks := 1 }
      rfl rfl (fun g hg => hall g (List.mem_cons_of_mem _ hg))
      (by dsimp only; rw [hlen1]; linarith)
    refine ⟨b1, b2, b3, ?_, ?_, by rw [b6]; rfl⟩
    · rw [b4]
      dsimp only
      rw [List.length_cons]
      omega
    · rw [b5]
      dsimp only
      rw [hlen1, List.length_cons, Nat.succ_mul]
      linarith

/-- A full hangover from `InSpeech` with a zero silence counter: after
`silence_chunks` all-zero hops the utterance is accepted, trimmed, normalized,
encoded (successfully, at a valid sample rate) and emitted as the only
notification of this run. -/
theorem processHops_hangover_phase (cfg : VadConfig) (sr : ℕ)
    (hsens : 0 ≤ cfg.sensitivity_rms) (hpt : 0 ≤ cfg.peak_threshold)
    (st : VadState)
    (hin : st.in_speech = true) (hsil0 : st.silence_chunks = 0)
    (hs : 1 ≤ cfg.silence_chunks)
    (hmin : cfg.min_speech_chunks ≤ st.speech_chunks)
    (hbufpos : 0 < st.speech_buffer.length)
    (hsr1 : 8000 ≤ sr) (hsr2 : sr ≤ 96000) :
    ∃ b64, (processHops cfg sr st
        (List.replicate cfg.silence_chunks (List.replicate cfg.hop_size 0))).2 =
      [VadEvent.speechDetected b64] := by
  have hsplit : List.replicate cfg.silence_chunks
      (List.replicate cfg.hop_size (0 : ℝ)) =
      List.replicate (cfg.silence_chunks - 1)
        (List.replicate cfg.hop_size (0 : ℝ)) ++
        [List.replicate cfg.hop_size (0 : ℝ)] := by
    conv_lhs => rw [show cfg.silence_chunks = (cfg.silence_chunks - 1) + 1 by omega]
    rw [List.replicate_succ']
  rw [hsplit, processHops_append]
  obtain ⟨c1, c2, c3, c4, c5, c6⟩ := processHops_inspeech_silence cfg sr hsens hpt
    (cfg.silence_chunks - 1) st hin (by omega)
  set stC := (processHops cfg sr st
    (List.replicate (cfg.silence_chunks - 1)
      (List.replicate cfg.hop_size (0 : ℝ)))).1 with hstC
  have hfullpos : 0 < (stC.speech_buffer ++
      apply_noise_gate (List.replicate cfg.hop_size 0)
        cfg.noise_gate_threshold).length := by
    rw [List.length_append, c5]
    omega
  have hfne : stC.speech_buffer ++
      apply_noise_gate (List.replicate cfg.hop_size 0)
        cfg.noise_gate_threshold ≠ [] := by
    intro hc
    rw [hc] at hfullpos
    simp at hfullpos
  have hstep := processHop_hangover_accept cfg sr stC
    (List.replicate cfg.hop_size 0) c1
    (zero_hop_not_speech cfg _ hsens hpt)
    (by omega) (by omega) hfne
  have htne : (if (stC.silence_chunks + 1) * cfg.hop_size - sr * 15 / 100 <
      (stC.speech_buffer ++
        apply_noise_gate (List.replicate cfg.hop_size 0)
          cfg.noise_gate_threshold).length then
      (stC.speech_buffer ++
        apply_noise_gate (List.replicate cfg.hop_size 0)
          cfg.noise_gate_threshold).take
        ((stC.speech_buffer ++
            apply_noise_gate (List.replicate cfg.hop_size 0)
              cfg.noise_gate_threshold).length -
          ((stC.silence_chunks + 1) * cfg.hop_size - sr * 15 / 100))
    else stC.speech_buffer ++
      apply_noise_gate (List.replicate cfg.hop_size 0)
        cfg.noise_gate_threshold) ≠ [] := by
    split_ifs with ht
    · intro hc
      have h0 := congrArg List.length hc
      rw [List.length_take] at h0
      dsimp only [List.length_nil] at h0
      omega
    · exact hfne
  refine ⟨b64encode (wavBytes sr (normalize_audio_level
    (if (stC.silence_chunks + 1) * cfg.hop_size - sr * 15 / 100 <
        (stC.speech_buffer ++
          apply_noise_gate (List.replicate cfg.hop_size 0)
            cfg.noise_gate_threshold).length then
      (stC.speech_buffer ++
        apply_noise_gate (List.replicate cfg.hop_size 0)
          cfg.noise_gate_threshold).take
        ((stC.speech_buffer ++
            apply_noise_gate (List.replicate cfg.hop_size 0)
              cfg.noise_gate_threshold).length -
          ((stC.silence_chunks + 1) * cfg.hop_size - sr * 15 / 100))
    else stC.speech_buffer ++
      apply_noise_gate (List.replicate cfg.hop_size 0)
        cfg.noise_gate_threshold) 0.1)), ?_⟩
  dsimp only
  rw [c6, List.nil_append, processHops_cons, hstep]
  dsimp only
  rw [processHops_nil]
  dsimp only
  rw [samples_to_wav_b64_ok sr _ hsr1 hsr2
    (normalize_audio_level_ne_nil _ _ htne)]
  rfl

/-! ## Claim C1 — Scenario A -/

/-- C1 (amended): for an enabled configuration with positive hop size, nonnegative
thresholds, `min_speech_chunks ≥ 1`, `silence_chunks ≥ 1`, a sample rate in
`[8000, 96000]`, and a pre-speech window plus speech run that stays below the
30-second safety cap, a hop-aligned stream of `silence_chunks` all-zero hops, then
`min_speech_chunks` hops whose post-gate peak exceeds `peak_threshold`, then
`silence_chunks` all-zero hops produces exactly one `speech-detected` notification
and zero `speech-discarded` notifications. -/
theorem claim_C1 (cfg : VadConfig) (sr : ℕ) (speechHops : List (List ℝ))
    (hen : cfg.enabled = true) (hhop : 0 < cfg.hop_size)
    (hsr1 : 8000 ≤ sr) (hsr2 : sr ≤ 96000)
    (hsens : 0 ≤ cfg.sensitivity_rms) (hpt : 0 ≤ cfg.peak_threshold)
    (hminc : 1 ≤ cfg.min_speech_chunks) (hsil : 1 ≤ cfg.silence_chunks)
    (hcap : (cfg.pre_speech_chunks + cfg.min_speech_chunks) * cfg.hop_size ≤
      sr * 30)
    (hm : speechHops.length = cfg.min_speech_chunks)
    (hlen : ∀ h ∈ speechHops, h.length = cfg.hop_size)
    (hspeech : ∀ h ∈ speechHops, cfg.peak_threshold <
      (calculate_audio_metrics (apply_noise_gate h cfg.noise_gate_threshold)).2) :
    (run_vad_capture cfg sr
        ((List.replicate cfg.silence_chunks
            (List.replicate cfg.hop_size (0 : ℝ)) ++ speechHops ++
          List.replicate cfg.silence_chunks
            (List.replicate cfg.hop_size (0 : ℝ))).flatten)).2.countP
        VadEvent.isDetected = 1 ∧
    (run_vad_capture cfg sr
        ((List.replicate cfg.silence_chunks
            (List.replicate cfg.hop_size (0 : ℝ)) ++ speechHops ++
          List.replicate cfg.silence_chunks
            (List.replicate cfg.hop_size (0 : ℝ))).flatten)).2.countP
        VadEvent.isDiscarded = 0 := by
  have hallhops : ∀ h ∈ List.replicate cfg.silence_chunks
      (List.replicate cfg.hop_size (0 : ℝ)) ++ speechHops ++
      List.replicate cfg.silence_chunks (List.replicate cfg.hop_size (0 : ℝ)),
      h.length = cfg.hop_size := by
    intro h hh
    rcases List.mem_append.mp hh with h1 | h1
    · rcases List.mem_append.mp h1 with h2 | h2
      · rw [List.eq_of_mem_replicate h2]
        exact List.length_replicate _ _
      · exact hlen h h2
    · rw [List.eq_of_mem_replicate h1]
      exact List.length_replicate _ _
  unfold run_vad_capture
  rw [chunkList_flatten cfg.hop_size hhop _ hallhops]
  obtain ⟨a1, a2, a3, a4, a5, a6⟩ := processHops_idle_silence cfg sr hsens hpt
    cfg.silence_chunks initVadState rfl (by simp [initVadState])
  set stA := (processHops cfg sr initVadState
    (List.replicate cfg.silence_chunks
      (List.replicate cfg.hop_size (0 : ℝ)))).1 with hstA
  have ha2 : stA.speech_buffer = [] := a2
  have hallS : ∀ h ∈ speechHops, h.length = cfg.hop_size ∧
      (cfg.sensitivity_rms <
          (calculate_audio_metrics
            (apply_noise_gate h cfg.noise_gate_threshold)).1 ∨
        cfg.peak_threshold <
          (calculate_audio_metrics
            (apply_noise_gate h cfg.noise_gate_threshold)).2) :=
    fun h hh => ⟨hlen h hh, Or.inr (hspeech h hh)⟩
  have hSne : speechHops ≠ [] := by
    intro hc
    rw [hc] at hm
    simp at hm
    omega
  have hcapB : stA.pre_speech.length + speechHops.length * cfg.hop_size ≤
      sr * 30 := by
    rw [hm]
    have hadd := Nat.add_mul cfg.pre_speech_chunks cfg.min_speech_chunks
      cfg.hop_size
    linarith [a5]
  obtain ⟨b1, b2, b3, b4, b5, b6⟩ := processHops_speech_phase cfg sr speechHops
    stA a1 ha2 hallS hSne hcapB
  set stB := (processHops cfg sr stA speechHops).1 with hstB
  have hb4 : cfg.min_speech_chunks ≤ stB.speech_chunks := by
    rw [b4, hm]
  have hbpos : 0 < stB.speech_buffer.length := by
    rw [b5, hm]
    have := Nat.mul_pos (show 0 < cfg.min_speech_chunks by omega) hhop
    omega
  obtain ⟨payload, hC⟩ := processHops_hangover_phase cfg sr hsens hpt stB b1 b3
    hsil hb4 hbpos hsr1 hsr2
  have hev : (processHops cfg sr initVadState
      (List.replicate cfg.silence_chunks
          (List.replicate cfg.hop_size (0 : ℝ)) ++ speechHops ++
        List.replicate cfg.silence_chunks
          (List.replicate cfg.hop_size (0 : ℝ)))).2 =
      [VadEvent.speechStart, VadEvent.speechDetected payload] := by
    rw [processHops_append]
    dsimp only
    rw [processHops_append]
    dsimp only
    rw [← hstA, a6, List.nil_append, ← hstB, b6, hC]
    rfl
  constructor <;> rw [hev] <;>
    simp [List.countP_cons, List.countP_nil, VadEvent.isDetected,
      VadEvent.isDiscarded]

/-- Post-gate peak of the one-sample hop `[1]` at gate threshold `0`. -/
theorem peak_single_one :
    (calculate_audio_metrics (apply_noise_gate [(1 : ℝ)] 0)).2 = 1 := by
  rw [apply_noise_gate_zero_threshold]
  unfold calculate_audio_metrics
  dsimp only
  rw [List.foldl_cons, List.foldl_nil]
  rw [abs_of_pos (by norm_num : (0 : ℝ) < 1)]
  exact max_eq_right (by norm_num)

/-- C1 witness: the amended theorem at a concrete configuration
(`hop_size = 1`, both thresholds `0`, `silence_chunks = min_speech_chunks = 1`,
no pre-speech window, gate threshold `0`) with one speech hop `[1]` at 8000 Hz. -/
theorem claim_C1_witness :
    (run_vad_capture ⟨true, 1, 0, 0, 1, 1, 0, 0, 180⟩ 8000
        ((List.replicate 1 (List.replicate 1 (0 : ℝ)) ++ [[(1 : ℝ)]] ++
          List.replicate 1 (List.replicate 1 (0 : ℝ))).flatten)).2.countP
        VadEvent.isDetected = 1 ∧
    (run_vad_capture ⟨true, 1, 0, 0, 1, 1, 0, 0, 180⟩ 8000
        ((List.replicate 1 (List.replicate 1 (0 : ℝ)) ++ [[(1 : ℝ)]] ++
          List.replicate 1 (List.replicate 1 (0 : ℝ))).flatten)).2.countP
        VadEvent.isDiscarded = 0 :=
  claim_C1 ⟨true, 1, 0, 0, 1, 1, 0, 0, 180⟩ 8000 [[(1 : ℝ)]]
    rfl (by norm_num) (by norm_num) (by norm_num) le_rfl le_rfl le_rfl le_rfl
    (by norm_num) rfl
    (by intro h hh; simp at hh; rw [hh]; rfl)
    (by
      intro h hh
      simp at hh
      rw [hh]
      show (0 : ℝ) < (calculate_audio_metrics (apply_noise_gate [(1 : ℝ)] 0)).2
      rw [peak_single_one]
      norm_num)

/-! ## Claim C2 — the 30-second safety cap -/

/-- Speech hop from `Idle` that immediately exceeds the safety cap (lines 171-201):
`speech-start` is emitted, then the over-long utterance is flushed. -/
theorem processHop_speech_start_capflush (cfg : VadConfig) (sr : ℕ) (st : VadState)
    (hop : List ℝ) (hidle : st.in_speech = false)
    (hsp : cfg.sensitivity_rms <
        (calculate_audio_metrics (apply_noise_gate hop cfg.noise_gate_threshold)).1 ∨
      cfg.peak_threshold <
        (calculate_audio_metrics (apply_noise_gate hop cfg.noise_gate_threshold)).2)
    (hcap : sr * 30 < ((st.speech_buffer ++ st.pre_speech) ++
        apply_noise_gate hop cfg.noise_gate_threshold).length) :
    processHop cfg sr st hop =
      ({ pre_speech := [], speech_buffer := [], in_speech := false,
         silence_chunks := 0, speech_chunks := 0 },
       VadEvent.speechStart ::
        (match samples_to_wav_b64 sr (normalize_audio_level
            ((st.speech_buffer ++ st.pre_speech) ++
              apply_noise_gate hop cfg.noise_gate_threshold) 0.1) with
          | Except.ok b64 => [VadEvent.speechDetected b64]
          | Except.error _ => [])) := by
  unfold processHop
  dsimp only
  rw [if_pos hsp]
  unfold vadSpeechStep
  rw [hidle, if_neg Bool.false_ne_true]
  dsimp only
  rw [if_pos hcap]
  rfl

/-- Peak of a constant hop of ones. -/
theorem peak_replicate_one (n : ℕ) (hn : n ≠ 0) :
    (calculate_audio_metrics (List.replicate n (1 : ℝ))).2 = 1 := by
  unfold calculate_audio_metrics
  dsimp only
  rw [foldl_max_abs_replicate, if_neg hn,
    abs_of_pos (by norm_num : (0 : ℝ) < 1)]
  exact max_eq_right (by norm_num)

/-- C2 (amended): the safety-cap check runs only on speech-classified hops.  While
`InSpeech`, a speech-classified hop that pushes the utterance past
`sample_rate * 30` samples force-flushes: the buffer is normalized, encoded and
emitted as a finished utterance when encoding succeeds, the buffer is cleared, and
the machine returns to `Idle` with both counters `0`; consequently after every
speech-classified hop the utterance buffer holds at most `sample_rate * 30`
samples.  (Silence hops while `InSpeech` append to the buffer without this check, so
the buffer is not bounded by `sample_rate * 30` plus one hop across silence hops —
see the counterexample.) -/
theorem claim_C2 :
    (∀ (cfg : VadConfig) (sr : ℕ) (st : VadState) (hop : List ℝ),
      st.in_speech = true →
      (cfg.sensitivity_rms <
          (calculate_audio_metrics
            (apply_noise_gate hop cfg.noise_gate_threshold)).1 ∨
        cfg.peak_threshold <
          (calculate_audio_metrics
            (apply_noise_gate hop cfg.noise_gate_threshold)).2) →
      sr * 30 < st.speech_buffer.length + hop.length →
      (processHop cfg sr st hop).1.speech_buffer = [] ∧
      (processHop cfg sr st hop).1.in_speech = false ∧
      (processHop cfg sr st hop).1.speech_chunks = 0 ∧
      (processHop cfg sr st hop).1.silence_chunks = 0 ∧
      (processHop cfg sr st hop).2 =
        (match samples_to_wav_b64 sr (normalize_audio_level
            (st.speech_buffer ++
              apply_noise_gate hop cfg.noise_gate_threshold) 0.1) with
          | Except.ok b64 => [VadEvent.speechDetected b64]
          | Except.error _ => [])) ∧
    (∀ (cfg : VadConfig) (sr : ℕ) (st : VadState) (hop : List ℝ),
      st.in_speech = true →
      (cfg.sensitivity_rms <
          (calculate_audio_metrics
            (apply_noise_gate hop cfg.noise_gate_threshold)).1 ∨
        cfg.peak_threshold <
          (calculate_audio_metrics
            (apply_noise_gate hop cfg.noise_gate_threshold)).2) →
      (processHop cfg sr st hop).1.speech_buffer.length ≤ sr * 30) := by
  have hlen : ∀ (cfg : VadConfig) (st : VadState) (hop : List ℝ),
      (st.speech_buffer ++ apply_noise_gate hop cfg.noise_gate_threshold).length =
        st.speech_buffer.length + hop.length := by
    intro cfg st hop
    rw [List.length_append, apply_noise_gate_length]
  constructor
  · intro cfg sr st hop hin hsp hcap
    rw [processHop_speech_capflush cfg sr st hop hin hsp (by rw [hlen]; omega)]
    exact ⟨rfl, rfl, rfl, rfl, rfl⟩
  · intro cfg sr st hop hin hsp
    by_cases hcap : sr * 30 <
        (st.speech_buffer ++ apply_noise_gate hop cfg.noise_gate_threshold).length
    · rw [processHop_speech_capflush cfg sr st hop hin hsp hcap]
      simp
    · rw [processHop_speech_cont cfg sr st hop hin hsp (by omega)]
      dsimp only
      omega

/-- C2 witness: both parts of the amended theorem at a concrete in-speech state with
a one-sample buffer and a one-sample speech hop, at `sr = 0` (so the flushed
encode fails and nothing is emitted, and the cap `sr * 30 = 0` is exceeded). -/
theorem claim_C2_witness :
    ((processHop ⟨true, 1, 1, 1 / 2, 5, 1, 0, 0, 180⟩ 0
        ⟨[], [1], true, 0, 1⟩ [(1 : ℝ)]).1.speech_buffer = [] ∧
      (processHop ⟨true, 1, 1, 1 / 2, 5, 1, 0, 0, 180⟩ 0
        ⟨[], [1], true, 0, 1⟩ [(1 : ℝ)]).1.in_speech = false ∧
      (processHop ⟨true, 1, 1, 1 / 2, 5, 1, 0, 0, 180⟩ 0
        ⟨[], [1], true, 0, 1⟩ [(1 : ℝ)]).1.speech_chunks = 0 ∧
      (processHop ⟨true, 1, 1, 1 / 2, 5, 1, 0, 0, 180⟩ 0
        ⟨[], [1], true, 0, 1⟩ [(1 : ℝ)]).1.silence_chunks = 0 ∧
      (processHop ⟨true, 1, 1, 1 / 2, 5, 1, 0, 0, 180⟩ 0
        ⟨[], [1], true, 0, 1⟩ [(1 : ℝ)]).2 =
        (match samples_to_wav_b64 0 (normalize_audio_level
            (([(1 : ℝ)] : List ℝ) ++ apply_noise_gate [(1 : ℝ)]
              (⟨true, 1, 1, 1 / 2, 5, 1, 0, 0, 180⟩ : VadConfig).noise_gate_threshold)
            0.1) with
          | Except.ok b64 => [VadEvent.speechDetected b64]
          | Except.error _ => [])) ∧
    (processHop ⟨true, 1, 1, 1 / 2, 5, 1, 0, 0, 180⟩ 0
        ⟨[], [1], true, 0, 1⟩ [(1 : ℝ)]).1.speech_buffer.length ≤ 0 * 30 := by
  have hsp : (⟨true, 1, 1, 1 / 2, 5, 1, 0, 0, 180⟩ : VadConfig).sensitivity_rms <
      (calculate_audio_metrics (apply_noise_gate [(1 : ℝ)]
        (⟨true, 1, 1, 1 / 2, 5, 1, 0, 0, 180⟩ :
          VadConfig).noise_gate_threshold)).1 ∨
      (⟨true, 1, 1, 1 / 2, 5, 1, 0, 0, 180⟩ : VadConfig).peak_threshold <
      (calculate_audio_metrics (apply_noise_gate [(1 : ℝ)]
        (⟨true, 1, 1, 1 / 2, 5, 1, 0, 0, 180⟩ :
          VadConfig).noise_gate_threshold)).2 := by
    refine Or.inr ?_
    show (1 / 2 : ℝ) < (calculate_audio_metrics (apply_noise_gate [(1 : ℝ)] 0)).2
    rw [peak_single_one]
    norm_num
  exact ⟨claim_C2.1 ⟨true, 1, 1, 1 / 2, 5, 1, 0, 0, 180⟩ 0 ⟨[], [1], true, 0, 1⟩
      [(1 : ℝ)] rfl hsp (by norm_num),
    claim_C2.2 ⟨true, 1, 1, 1 / 2, 5, 1, 0, 0, 180⟩ 0 ⟨[], [1], true, 0, 1⟩
      [(1 : ℝ)] rfl hsp⟩

/-- C2 counterexample: with the valid configuration
`⟨enabled, hop_size := 240000, sensitivity_rms := 1, peak_threshold := 1/2,
silence_chunks := 5, min_speech_chunks := 1, pre_speech_chunks := 0,
noise_gate_threshold := 0, max 180s⟩` at 8000 Hz, one speech hop followed by two
silent hops leaves the machine `InSpeech` with a 720000-sample utterance buffer —
above `sample_rate * 30 = 240000`, and even above `sample_rate * 30` plus one hop —
with no flush and no `speech-detected` emission: the safety cap is not checked on
silence hops. -/
theorem claim_C2_counterexample :
    (run_vad_capture ⟨true, 240000, 1, 1 / 2, 5, 1, 0, 0, 180⟩ 8000
        ([List.replicate 240000 (1 : ℝ), List.replicate 240000 (0 : ℝ),
          List.replicate 240000 (0 : ℝ)].flatten)).1.in_speech = true ∧
    (run_vad_capture ⟨true, 240000, 1, 1 / 2, 5, 1, 0, 0, 180⟩ 8000
        ([List.replicate 240000 (1 : ℝ), List.replicate 240000 (0 : ℝ),
          List.replicate 240000 (0 : ℝ)].flatten)).1.speech_buffer.length =
      720000 ∧
    8000 * 30 + 240000 < 720000 ∧
    (run_vad_capture ⟨true, 240000, 1, 1 / 2, 5, 1, 0, 0, 180⟩ 8000
        ([List.replicate 240000 (1 : ℝ), List.replicate 240000 (0 : ℝ),
          List.replicate 240000 (0 : ℝ)].flatten)).2.countP
      VadEvent.isDetected = 0 := by
  have hall : ∀ h ∈ [List.replicate 240000 (1 : ℝ),
      List.replicate 240000 (0 : ℝ), List.replicate 240000 (0 : ℝ)],
      h.length = (⟨true, 240000, 1, 1 / 2, 5, 1, 0, 0, 180⟩ :
        VadConfig).hop_size := by
    intro h hh
    simp only [List.mem_cons, List.not_mem_nil, or_false] at hh
    rcases hh with rfl | rfl | rfl <;> exact List.length_replicate _ _
  have hgz : apply_noise_gate (List.replicate 240000 (0 : ℝ))
      (⟨true, 240000, 1, 1 / 2, 5, 1, 0, 0, 180⟩ :
        VadConfig).noise_gate_threshold = List.replicate 240000 (0 : ℝ) :=
    apply_noise_gate_replicate_zero _ _
  have hgo : apply_noise_gate (List.replicate 240000 (1 : ℝ))
      (⟨true, 240000, 1, 1 / 2, 5, 1, 0, 0, 180⟩ :
        VadConfig).noise_gate_threshold = List.replicate 240000 (1 : ℝ) :=
    apply_noise_gate_zero_threshold _
  have hsp : (⟨true, 240000, 1, 1 / 2, 5, 1, 0, 0, 180⟩ :
      VadConfig).sensitivity_rms <
      (calculate_audio_metrics (apply_noise_gate (List.replicate 240000 (1 : ℝ))
        (⟨true, 240000, 1, 1 / 2, 5, 1, 0, 0, 180⟩ :
          VadConfig).noise_gate_threshold)).1 ∨
      (⟨true, 240000, 1, 1 / 2, 5, 1, 0, 0, 180⟩ :
        VadConfig).peak_threshold <
      (calculate_audio_metrics (apply_noise_gate (List.replicate 240000 (1 : ℝ))
        (⟨true, 240000, 1, 1 / 2, 5, 1, 0, 0, 180⟩ :
          VadConfig).noise_gate_threshold)).2 := by
    refine Or.inr ?_
    rw [hgo]
    show (1 / 2 : ℝ) < (calculate_audio_metrics (List.replicate 240000 (1 : ℝ))).2
    rw [peak_replicate_one 240000 (by norm_num)]
    norm_num
  have hsil : ¬((⟨true, 240000, 1, 1 / 2, 5, 1, 0, 0, 180⟩ :
      VadConfig).sensitivity_rms <
      (calculate_audio_metrics (apply_noise_gate (List.replicate 240000 (0 : ℝ))
        (⟨true, 240000, 1, 1 / 2, 5, 1, 0, 0, 180⟩ :
          VadConfig).noise_gate_threshold)).1 ∨
      (⟨true, 240000, 1, 1 / 2, 5, 1, 0, 0, 180⟩ :
        VadConfig).peak_threshold <
      (calculate_audio_metrics (apply_noise_gate (List.replicate 240000 (0 : ℝ))
        (⟨true, 240000, 1, 1 / 2, 5, 1, 0, 0, 180⟩ :
          VadConfig).noise_gate_threshold)).2) :=
    zero_hop_not_speech _ _ (show (0 : ℝ) ≤ 1 by norm_num)
      (show (0 : ℝ) ≤ 1 / 2 by norm_num)
  have hcap1 : ((initVadState.speech_buffer ++ initVadState.pre_speech) ++
      apply_noise_gate (List.replicate 240000 (1 : ℝ))
        (⟨true, 240000, 1, 1 / 2, 5, 1, 0, 0, 180⟩ :
          VadConfig).noise_gate_threshold).length ≤ 8000 * 30 := by
    rw [List.length_append, List.length_append, apply_noise_gate_length,
      List.length_replicate]
    show ([] : List ℝ).length + ([] : List ℝ).length + 240000 ≤ 8000 * 30
    norm_num
  have s1 := processHop_speech_start
    ⟨true, 240000, 1, 1 / 2, 5, 1, 0, 0, 180⟩ 8000 initVadState
    (List.replicate 240000 (1 : ℝ)) rfl hsp hcap1
  rw [hgo] at s1
  have s1' : processHop ⟨true, 240000, 1, 1 / 2, 5, 1, 0, 0, 180⟩ 8000
      initVadState (List.replicate 240000 (1 : ℝ)) =
      (⟨[], List.replicate 240000 (1 : ℝ), true, 0, 1⟩,
        [VadEvent.speechStart]) := s1
  have s2 := processHop_silent_inspeech
    ⟨true, 240000, 1, 1 / 2, 5, 1, 0, 0, 180⟩ 8000
    ⟨[], List.replicate 240000 (1 : ℝ), true, 0, 1⟩
    (List.replicate 240000 (0 : ℝ)) rfl hsil
    (show (0 : ℕ) + 1 < 5 by norm_num)
  rw [hgz] at s2
  have s2' : processHop ⟨true, 240000, 1, 1 / 2, 5, 1, 0, 0, 180⟩ 8000
      ⟨[], List.replicate 240000 (1 : ℝ), true, 0, 1⟩
      (List.replicate 240000 (0 : ℝ)) =
      (⟨[], List.replicate 240000 (1 : ℝ) ++ List.replicate 240000 (0 : ℝ),
        true, 1, 1⟩, []) := s2
  have s3 := processHop_silent_inspeech
    ⟨true, 240000, 1, 1 / 2, 5, 1, 0, 0, 180⟩ 8000
    ⟨[], List.replicate 240000 (1 : ℝ) ++ List.replicate 240000 (0 : ℝ),
      true, 1, 1⟩
    (List.replicate 240000 (0 : ℝ)) rfl hsil
    (show (1 : ℕ) + 1 < 5 by norm_num)
  rw [hgz] at s3
  have s3' : processHop ⟨true, 240000, 1, 1 / 2, 5, 1, 0, 0, 180⟩ 8000
      ⟨[], List.replicate 240000 (1 : ℝ) ++ List.replicate 240000 (0 : ℝ),
        true, 1, 1⟩ (List.replicate 240000 (0 : ℝ)) =
      (⟨[], (List.replicate 240000 (1 : ℝ) ++ List.replicate 240000 (0 : ℝ)) ++
        List.replicate 240000 (0 : ℝ), true, 2, 1⟩, []) := s3
  have hrun : run_vad_capture ⟨true, 240000, 1, 1 / 2, 5, 1, 0, 0, 180⟩ 8000
      ([List.replicate 240000 (1 : ℝ), List.replicate 240000 (0 : ℝ),
        List.replicate 240000 (0 : ℝ)].flatten) =
      (⟨[], (List.replicate 240000 (1 : ℝ) ++ List.replicate 240000 (0 : ℝ)) ++
        List.replicate 240000 (0 : ℝ), true, 2, 1⟩,
        [VadEvent.speechStart]) := by
    unfold run_vad_capture
    rw [chunkList_flatten _ (show (0 : ℕ) < 240000 by norm_num) _ hall]
    rw [processHops_cons, s1']
    dsimp only
    rw [processHops_cons, s2']
    dsimp only
    rw [processHops_cons, s3']
    dsimp only
    rw [processHops_nil]
    rfl
  rw [hrun]
  refine ⟨rfl, ?_, by norm_num, rfl⟩
  dsimp only
  rw [List.length_append, List.length_append, List.length_replicate,
    List.length_replicate]

/-- C1 counterexample: the valid configuration
`⟨enabled, hop_size := 240001, sensitivity_rms := 1, peak_threshold := 1/2,
silence_chunks := 1, min_speech_chunks := 2, pre_speech_chunks := 0,
noise_gate_threshold := 0, max 180s⟩` at 8000 Hz satisfies every condition the claim
states (enabled, hop alignment, sample rate in range — and even the documented config
invariants), and the Scenario-A stream of `silence_chunks` silent hops,
`min_speech_chunks` hops with peak above `peak_threshold`, and `silence_chunks`
silent hops yields TWO `speech-detected` notifications: each speech hop exceeds the
30-second safety cap by itself, so each is cap-flushed as its own utterance. -/
theorem claim_C1_counterexample :
    (run_vad_capture ⟨true, 240001, 1, 1 / 2, 1, 2, 0, 0, 180⟩ 8000
        ((List.replicate 1 (List.replicate 240001 (0 : ℝ)) ++
          [List.replicate 240001 (1 : ℝ), List.replicate 240001 (1 : ℝ)] ++
          List.replicate 1 (List.replicate 240001 (0 : ℝ))).flatten)).2.countP
        VadEvent.isDetected = 2 ∧
    ¬((run_vad_capture ⟨true, 240001, 1, 1 / 2, 1, 2, 0, 0, 180⟩ 8000
        ((List.replicate 1 (List.replicate 240001 (0 : ℝ)) ++
          [List.replicate 240001 (1 : ℝ), List.replicate 240001 (1 : ℝ)] ++
          List.replicate 1 (List.replicate 240001 (0 : ℝ))).flatten)).2.countP
        VadEvent.isDetected = 1 ∧
      (run_vad_capture ⟨true, 240001, 1, 1 / 2, 1, 2, 0, 0, 180⟩ 8000
        ((List.replicate 1 (List.replicate 240001 (0 : ℝ)) ++
          [List.replicate 240001 (1 : ℝ), List.replicate 240001 (1 : ℝ)] ++
          List.replicate 1 (List.replicate 240001 (0 : ℝ))).flatten)).2.countP
        VadEvent.isDiscarded = 0) := by
  have hlist : List.replicate 1 (List.replicate 240001 (0 : ℝ)) ++
      [List.replicate 240001 (1 : ℝ), List.replicate 240001 (1 : ℝ)] ++
      List.replicate 1 (List.replicate 240001 (0 : ℝ)) =
      [List.replicate 240001 (0 : ℝ), List.replicate 240001 (1 : ℝ),
        List.replicate 240001 (1 : ℝ), List.replicate 240001 (0 : ℝ)] := rfl
  have hall : ∀ h ∈ [List.replicate 240001 (0 : ℝ),
      List.replicate 240001 (1 : ℝ), List.replicate 240001 (1 : ℝ),
      List.replicate 240001 (0 : ℝ)],
      h.length = (⟨true, 240001, 1, 1 / 2, 1, 2, 0, 0, 180⟩ :
        VadConfig).hop_size := by
    intro h hh
    simp only [List.mem_cons, List.not_mem_nil, or_false] at hh
    rcases hh with rfl | rfl | rfl | rfl <;> exact List.length_replicate _ _
  have hgz : apply_noise_gate (List.replicate 240001 (0 : ℝ))
      (⟨true, 240001, 1, 1 / 2, 1, 2, 0, 0, 180⟩ :
        VadConfig).noise_gate_threshold = List.replicate 240001 (0 : ℝ) :=
    apply_noise_gate_replicate_zero _ _
  have hsilzh : ¬((⟨true, 240001, 1, 1 / 2, 1, 2, 0, 0, 180⟩ :
      VadConfig).sensitivity_rms <
      (calculate_audio_metrics (apply_noise_gate (List.replicate 240001 (0 : ℝ))
        (⟨true, 240001, 1, 1 / 2, 1, 2, 0, 0, 180⟩ :
          VadConfig).noise_gate_threshold)).1 ∨
      (⟨true, 240001, 1, 1 / 2, 1, 2, 0, 0, 180⟩ :
        VadConfig).peak_threshold <
      (calculate_audio_metrics (apply_noise_gate (List.replicate 240001 (0 : ℝ))
        (⟨true, 240001, 1, 1 / 2, 1, 2, 0, 0, 180⟩ :
          VadConfig).noise_gate_threshold)).2) :=
    zero_hop_not_speech _ _ (show (0 : ℝ) ≤ 1 by norm_num)
      (show (0 : ℝ) ≤ 1 / 2 by norm_num)
  have s1 := processHop_silent_idle ⟨true, 240001, 1, 1 / 2, 1, 2, 0, 0, 180⟩
    8000 initVadState (List.replicate 240001 (0 : ℝ)) rfl hsilzh
  rw [hgz] at s1
  have hlen0 : (initVadState.pre_speech ++ List.replicate 240001 (0 : ℝ)).length =
      240001 := by
    rw [List.length_append, List.length_replicate]
    show ([] : List ℝ).length + 240001 = 240001
    norm_num
  rw [hlen0] at s1
  have hc0 : (⟨true, 240001, 1, 1 / 2, 1, 2, 0, 0, 180⟩ :
      VadConfig).pre_speech_chunks *
      (⟨true, 240001, 1, 1 / 2, 1, 2, 0, 0, 180⟩ : VadConfig).hop_size = 0 := rfl
  rw [hc0, Nat.sub_zero] at s1
  have hdrop : (initVadState.pre_speech ++
      List.replicate 240001 (0 : ℝ)).drop 240001 = [] := by
    apply List.drop_eq_nil_of_le
    rw [hlen0]
  rw [hdrop] at s1
  have s1' : processHop ⟨true, 240001, 1, 1 / 2, 1, 2, 0, 0, 180⟩ 8000
      initVadState (List.replicate 240001 (0 : ℝ)) = (initVadState, []) := s1
  have hsp : (⟨true, 240001, 1, 1 / 2, 1, 2, 0, 0, 180⟩ :
      VadConfig).sensitivity_rms <
      (calculate_audio_metrics (apply_noise_gate (List.replicate 240001 (1 : ℝ))
        (⟨true, 240001, 1, 1 / 2, 1, 2, 0, 0, 180⟩ :
          VadConfig).noise_gate_threshold)).1 ∨
      (⟨true, 240001, 1, 1 / 2, 1, 2, 0, 0, 180⟩ :
        VadConfig).peak_threshold <
      (calculate_audio_metrics (apply_noise_gate (List.replicate 240001 (1 : ℝ))
        (⟨true, 240001, 1, 1 / 2, 1, 2, 0, 0, 180⟩ :
          VadConfig).noise_gate_threshold)).2 := by
    refine Or.inr ?_
    rw [show apply_noise_gate (List.replicate 240001 (1 : ℝ))
        (⟨true, 240001, 1, 1 / 2, 1, 2, 0, 0, 180⟩ :
          VadConfig).noise_gate_threshold = List.replicate 240001 (1 : ℝ) from
      apply_noise_gate_zero_threshold _]
    show (1 / 2 : ℝ) < (calculate_audio_metrics (List.replicate 240001 (1 : ℝ))).2
    rw [peak_replicate_one 240001 (by norm_num)]
    norm_num
  have hcap2 : 8000 * 30 < ((initVadState.speech_buffer ++
      initVadState.pre_speech) ++
      apply_noise_gate (List.replicate 240001 (1 : ℝ))
        (⟨true, 240001, 1, 1 / 2, 1, 2, 0, 0, 180⟩ :
          VadConfig).noise_gate_threshold).length := by
    rw [List.length_append, List.length_append, apply_noise_gate_length,
      List.length_replicate]
    show 8000 * 30 < ([] : List ℝ).length + ([] : List ℝ).length + 240001
    norm_num
  have s2 := processHop_speech_start_capflush
    ⟨true, 240001, 1, 1 / 2, 1, 2, 0, 0, 180⟩ 8000 initVadState
    (List.replicate 240001 (1 : ℝ)) rfl hsp hcap2
  have hbuf2 : (initVadState.speech_buffer ++ initVadState.pre_speech) ++
      apply_noise_gate (List.replicate 240001 (1 : ℝ))
        (⟨true, 240001, 1, 1 / 2, 1, 2, 0, 0, 180⟩ :
          VadConfig).noise_gate_threshold = List.replicate 240001 (1 : ℝ) := by
    rw [show apply_noise_gate (List.replicate 240001 (1 : ℝ))
        (⟨true, 240001, 1, 1 / 2, 1, 2, 0, 0, 180⟩ :
          VadConfig).noise_gate_threshold = List.replicate 240001 (1 : ℝ) from
      apply_noise_gate_zero_threshold _]
    rfl
  rw [hbuf2] at s2
  have hone_ne : List.replicate 240001 (1 : ℝ) ≠ [] := by
    intro hc
    have h0 := congrArg List.length hc
    rw [List.length_replicate, List.length_nil] at h0
    norm_num at h0
  have hok := samples_to_wav_b64_ok 8000
    (normalize_audio_level (List.replicate 240001 (1 : ℝ)) 0.1)
    (by norm_num) (by norm_num)
    (normalize_audio_level_ne_nil _ _ hone_ne)
  rw [hok] at s2
  have s2' : processHop ⟨true, 240001, 1, 1 / 2, 1, 2, 0, 0, 180⟩ 8000
      initVadState (List.replicate 240001 (1 : ℝ)) =
      (initVadState, [VadEvent.speechStart, VadEvent.speechDetected
        (b64encode (wavBytes 8000
          (normalize_audio_level (List.replicate 240001 (1 : ℝ)) 0.1)))]) := s2
  have hrun : run_vad_capture ⟨true, 240001, 1, 1 / 2, 1, 2, 0, 0, 180⟩ 8000
      ((List.replicate 1 (List.replicate 240001 (0 : ℝ)) ++
        [List.replicate 240001 (1 : ℝ), List.replicate 240001 (1 : ℝ)] ++
        List.replicate 1 (List.replicate 240001 (0 : ℝ))).flatten) =
      (initVadState,
        [VadEvent.speechStart, VadEvent.speechDetected
          (b64encode (wavBytes 8000
            (normalize_audio_level (List.replicate 240001 (1 : ℝ)) 0.1))),
         VadEvent.speechStart, VadEvent.speechDetected
          (b64encode (wavBytes 8000
            (normalize_audio_level (List.replicate 240001 (1 : ℝ)) 0.1)))]) := by
    unfold run_vad_capture
    rw [hlist, chunkList_flatten _ (show (0 : ℕ) < 240001 by norm_num) _ hall]
    rw [processHops_cons, s1']
    dsimp only
    rw [processHops_cons, s2']
    dsimp only
    rw [processHops_cons, s2']
    dsimp only
    rw [processHops_cons, s1']
    dsimp only
    rw [processHops_nil]
    rfl
  rw [hrun]
  constructor
  · rfl
  · rintro ⟨h1, _⟩
    rw [show ([VadEvent.speechStart, VadEvent.speechDetected
        (b64encode (wavBytes 8000
          (normalize_audio_level (List.replicate 240001 (1 : ℝ)) 0.1))),
       VadEvent.speechStart, VadEvent.speechDetected
        (b64encode (wavBytes 8000
          (normalize_audio_level (List.replicate 240001 (1 : ℝ)) 0.1)))].countP
        VadEvent.isDetected) = 2 from rfl] at h1
    omega

/-! ## Claim C10 — encode-failure handling at the two flush sites -/

/-- C10: when WAV encoding fails (here: a sample rate outside `[8000, 96000]`, the
only failure the encoder has), the 30-second safety-cap flush drops the utterance
silently — the buffer is cleared and NO notification (neither `speech-detected` nor
`audio-encoding-error`) is emitted — whereas the hangover-completion flush emits an
`audio-encoding-error` notification (`"Failed to encode speech"`). -/
theorem claim_C10 :
    (∀ (cfg : VadConfig) (sr : ℕ) (st : VadState) (hop : List ℝ),
      st.in_speech = true →
      (cfg.sensitivity_rms <
          (calculate_audio_metrics
            (apply_noise_gate hop cfg.noise_gate_threshold)).1 ∨
        cfg.peak_threshold <
          (calculate_audio_metrics
            (apply_noise_gate hop cfg.noise_gate_threshold)).2) →
      sr * 30 < st.speech_buffer.length + hop.length →
      (sr < 8000 ∨ 96000 < sr) →
      (processHop cfg sr st hop).2 = [] ∧
      (processHop cfg sr st hop).1.speech_buffer = []) ∧
    (∀ (cfg : VadConfig) (sr : ℕ) (st : VadState) (hop : List ℝ),
      st.in_speech = true →
      ¬(cfg.sensitivity_rms <
          (calculate_audio_metrics
            (apply_noise_gate hop cfg.noise_gate_threshold)).1 ∨
        cfg.peak_threshold <
          (calculate_audio_metrics
            (apply_noise_gate hop cfg.noise_gate_threshold)).2) →
      cfg.silence_chunks ≤ st.silence_chunks + 1 →
      cfg.min_speech_chunks ≤ st.speech_chunks →
      st.speech_buffer ++ apply_noise_gate hop cfg.noise_gate_threshold ≠ [] →
      (sr < 8000 ∨ 96000 < sr) →
      (processHop cfg sr st hop).2 =
        [VadEvent.audioEncodingError "Failed to encode speech"]) := by
  constructor
  · intro cfg sr st hop hin hsp hcap hsr
    have hcap2 : sr * 30 < (st.speech_buffer ++
        apply_noise_gate hop cfg.noise_gate_threshold).length := by
      rw [List.length_append, apply_noise_gate_length]
      omega
    obtain ⟨e, he⟩ := samples_to_wav_b64_err sr
      (normalize_audio_level (st.speech_buffer ++
        apply_noise_gate hop cfg.noise_gate_threshold) 0.1) hsr
    rw [processHop_speech_capflush cfg sr st hop hin hsp hcap2]
    dsimp only
    rw [he]
    exact ⟨rfl, rfl⟩
  · intro cfg sr st hop hin hsil hhang hmin hne hsr
    obtain ⟨e, he⟩ := samples_to_wav_b64_err sr
      (normalize_audio_level
        (if (st.silence_chunks + 1) * cfg.hop_size - sr * 15 / 100 <
            (st.speech_buffer ++
              apply_noise_gate hop cfg.noise_gate_threshold).length then
          (st.speech_buffer ++ apply_noise_gate hop cfg.noise_gate_threshold).take
            ((st.speech_buffer ++
                apply_noise_gate hop cfg.noise_gate_threshold).length -
              ((st.silence_chunks + 1) * cfg.hop_size - sr * 15 / 100))
        else st.speech_buffer ++ apply_noise_gate hop cfg.noise_gate_threshold)
        0.1) hsr
    rw [processHop_hangover_accept cfg sr st hop hin hsil hhang hmin hne]
    dsimp only
    rw [he]

/-- C10 witness: both parts at `sr = 0` (an invalid rate, so encoding fails), with a
one-sample utterance buffer; the cap flush emits nothing, the hangover flush emits
the `audio-encoding-error` notification. -/
theorem claim_C10_witness :
    ((processHop ⟨true, 1, 1, 1 / 2, 1, 1, 0, 0, 180⟩ 0
        ⟨[], [1], true, 0, 1⟩ [(1 : ℝ)]).2 = [] ∧
      (processHop ⟨true, 1, 1, 1 / 2, 1, 1, 0, 0, 180⟩ 0
        ⟨[], [1], true, 0, 1⟩ [(1 : ℝ)]).1.speech_buffer = []) ∧
    (processHop ⟨true, 1, 1, 1 / 2, 1, 1, 0, 0, 180⟩ 0
        ⟨[], [1], true, 0, 1⟩ (List.replicate 1 (0 : ℝ))).2 =
      [VadEvent.audioEncodingError "Failed to encode speech"] := by
  constructor
  · apply claim_C10.1 ⟨true, 1, 1, 1 / 2, 1, 1, 0, 0, 180⟩ 0
      ⟨[], [1], true, 0, 1⟩ [(1 : ℝ)] rfl
    · refine Or.inr ?_
      show (1 / 2 : ℝ) <
        (calculate_audio_metrics (apply_noise_gate [(1 : ℝ)] 0)).2
      rw [peak_single_one]
      norm_num
    · norm_num
    · exact Or.inl (by norm_num)
  · apply claim_C10.2 ⟨true, 1, 1, 1 / 2, 1, 1, 0, 0, 180⟩ 0
      ⟨[], [1], true, 0, 1⟩ (List.replicate 1 (0 : ℝ)) rfl
    · exact zero_hop_not_speech _ _ (show (0 : ℝ) ≤ 1 by norm_num)
        (show (0 : ℝ) ≤ 1 / 2 by norm_num)
    · show (1 : ℕ) ≤ 0 + 1
      norm_num
    · show (1 : ℕ) ≤ 1
      norm_num
    · exact List.cons_ne_nil _ _
    · exact Or.inl (by norm_num)

end
